import Mathlib

/-!
Verification development for the exoplanet-explorer data pipeline.

The JavaScript sources (src/js/nasa-data.js, src/js/science.js,
src/js/database.js) are shallowly embedded below.  Modelling conventions:

* JS numbers are idealised as real numbers (`ℝ`); fields that can be
  `null`/`undefined` are `Option ℝ` (or `Option String`, ...).  `NaN` is not
  modelled; the only string-to-number coercions that occur compare a
  non-numeric string with a number, which in JS yields `NaN` comparisons that
  are always false, and the embedding hard-codes that outcome.
* `Math.round x` is `⌊x + 1/2⌋` (JS rounds half toward +∞);
  `Math.floor` is `Int.floor`; `Math.pow` is `Real.rpow` for fractional
  exponents and `Monoid.npow` for literal integer ones; `Math.sqrt` is
  `Real.sqrt`.
* JS string operations are re-implemented over `String.data` (`List Char`)
  so that concrete evaluation is possible inside the kernel.
* Long prose-only fields of returned objects (educational notes, captions,
  guidance paragraphs) carry no logic; they are either kept verbatim when
  short or elided when they merely embed static text, as noted locally.
* `localStorage`, `Date.now()` and `fetch` are modelled by an explicit
  environment record threaded through the pipeline entrypoint; JSON
  serialisation length is an oracle function in that environment.
-/

/-! ## JS primitive helpers -/

/-- JS `Math.round`: round half toward positive infinity. -/
noncomputable def jsRound (x : ℝ) : ℤ := ⌊x + 1 / 2⌋

/-- JS `ToNumber` coercion of a possibly-`null` number (`ToNumber(null) = 0`). -/
def jsNum (x : Option ℝ) : ℝ := x.getD 0

/-- Truthiness of a possibly-`null` JS number: `null`, `undefined` and `0` are falsy. -/
noncomputable def jsTruthyNum (x : Option ℝ) : Bool :=
  match x with
  | none => false
  | some v => decide (v ≠ 0)

/-- Truthiness of a possibly-`null` JS string: `null`, `undefined` and `""` are falsy. -/
def jsTruthyStr (x : Option String) : Bool :=
  match x with
  | none => false
  | some s => !s.isEmpty

/-- Character-wise lower-casing, modelling `String.prototype.toLowerCase`. -/
def jsToLower (s : String) : String := ⟨s.data.map Char.toLower⟩

/-- Whether `pat` matches at the head of `l` (helper for substring search). -/
def listMatchesAt : List Char → List Char → Bool
  | [], _ => true
  | _ :: _, [] => false
  | a :: as, b :: bs => a == b && listMatchesAt as bs

/-- Whether `l` has `pat` as a contiguous run (helper for substring search). -/
def listHasRun (pat : List Char) : List Char → Bool
  | [] => listMatchesAt pat []
  | c :: rest => listMatchesAt pat (c :: rest) || listHasRun pat rest

/-- JS `String.prototype.includes`. -/
def strIncludes (s pat : String) : Bool := listHasRun pat.data s.data

/-- JS `String.prototype.startsWith`. -/
def strStarts (s pat : String) : Bool := listMatchesAt pat.data s.data

/-- JS `String.prototype.trim` (whitespace from both ends). -/
def jsTrim (s : String) : String :=
  ⟨(((s.data.dropWhile Char.isWhitespace).reverse.dropWhile Char.isWhitespace).reverse)⟩

/-- Lexicographic order on char lists by code point, modelling JS `<` on strings. -/
def lexLt : List Char → List Char → Bool
  | [], [] => false
  | [], _ :: _ => true
  | _ :: _, [] => false
  | a :: as, b :: bs =>
    if a.toNat < b.toNat then true
    else if b.toNat < a.toNat then false
    else lexLt as bs

/-- JS `<` on strings. -/
def strLtB (a b : String) : Bool := lexLt a.data b.data

/-! ## science.js — data structures -/

/-- One row of the Kopparapu et al. HZ coefficient table. -/
structure HZCoeffs where
  S0 : ℝ
  a : ℝ
  b : ℝ
  c : ℝ
  d : ℝ

def HZ_recentVenus : HZCoeffs :=
  { S0 := 1.7763, a := 1.4335e-4, b := 3.3954e-9, c := -7.6364e-12, d := -1.1950e-15 }

def HZ_runawayGH : HZCoeffs :=
  { S0 := 1.0385, a := 1.2456e-4, b := 1.4612e-8, c := -7.6345e-12, d := -1.7511e-15 }

def HZ_maxGreenhouse : HZCoeffs :=
  { S0 := 0.3507, a := 5.9578e-5, b := 1.6707e-9, c := -3.0058e-12, d := -5.1925e-16 }

def HZ_earlyMars : HZCoeffs :=
  { S0 := 0.3207, a := 5.4471e-5, b := 1.5275e-9, c := -2.1709e-12, d := -3.8282e-16 }

/-- Habitable-zone boundaries returned by `calculateHabitableZone`.
The `modelNote` string of the source embeds the numeric temperature; it is
represented here by the boolean `modelNoted` (note attached or `null`). -/
structure HZBoundaries where
  conservativeInner : ℝ
  conservativeOuter : ℝ
  optimisticInner : ℝ
  optimisticOuter : ℝ
  modelValid : Bool
  modelNoted : Bool
  reference : String

/-- Result of `getHZStatus` (the constant `caveat` prose field is elided). -/
structure HZStatus where
  conservative : Bool
  optimistic : Bool
  label : String
  hz : Option HZBoundaries
  confidence : String

/-- The four ESI component scores (each `null` when not computable). -/
structure ESIComponents where
  radius : Option ℝ := none
  density : Option ℝ := none
  escapeVelocity : Option ℝ := none
  surfaceTemp : Option ℝ := none

/-- Result of `calculateESI`. -/
structure ESIResult where
  global : ℝ
  interior : Option ℝ
  surface : Option ℝ
  components : ESIComponents
  confidence : String
  reference : String := "Schulze-Makuch et al. (2011)"
  note : Option String := none

/-- Result of `formatRADec`.  The two padded sexagesimal strings are
represented by their numeric components (the string rendering of real
numbers carries no further information). -/
structure Coords where
  raHours : ℝ
  decDeg : ℝ
  raH : ℤ
  raMin : ℤ
  raSecTenths : ℤ
  decSignPos : Bool
  decD : ℤ
  decMin : ℤ
  decSec : ℤ

/-- A row of the simplified constellation region table. -/
structure CRegion where
  name : String
  abbr : String
  raMin : ℝ
  raMax : ℝ
  decMin : ℝ
  decMax : ℝ

/-- Result of `getConstellation`. -/
structure ConstellationRef where
  name : String
  abbreviation : String

/-- Result of `getObservability`. -/
structure Observability where
  bestMonth : String
  bestMonthAbbr : String
  bestMonthIndex : ℕ
  seasonStart : String
  seasonEnd : String
  seasonLabel : String
  hemisphere : String
  circumpolarNorth : Bool
  circumpolarSouth : Bool
  note : Option String

/-- Result of `getMagnitudeGuidance` (the `guidance` and `note` prose
paragraphs are elided; they are constant per label band). -/
structure MagGuidance where
  label : String
  magnitude : ℝ
  confidence : String

/-- An entry of the `DISCOVERY_METHODS` table (the educational prose fields
`shortDesc`, `fullDesc`, `physics`, `strengths`, `limitations`, `missions`
are elided; they are static text keyed by `id`). -/
structure MethodInfo where
  id : String
  name : String
  animationType : String

/-- Internal planet record: the fields produced by `mapNASARecord`, the
flags added by `validateAndClean`, the classification fields added by the
database layer, and the fields attached by `enrichPlanet`. -/
structure Planet where
  name : String := "Unknown"
  system : String := "Unknown"
  distance : Option ℝ := none
  radius : Option ℝ := none
  mass : Option ℝ := none
  period : Option ℝ := none
  semiMajorAxis : Option ℝ := none
  eqTemp : Option ℝ := none
  eccentricity : Option ℝ := none
  inclination : Option ℝ := none
  starType : Option String := none
  starTemp : Option ℝ := none
  starMass : Option ℝ := none
  starLum : Option ℝ := none
  starLumLog : Option ℝ := none
  discovered : Option ℝ := none
  discoveryMethod : Option String := none
  discoveryFacility : Option String := none
  discoveryRef : Option String := none
  ra : Option ℝ := none
  dec : Option ℝ := none
  vMag : Option ℝ := none
  kMag : Option ℝ := none
  controversial : Bool := false
  source : String := ""
  nasaRaw : Bool := false
  eqTempEstimated : Bool := false
  type : String := ""
  habitability : ℝ := 0
  hzStatus : Option HZStatus := none
  esi : Option ESIResult := none
  coords : Option Coords := none
  constellation : Option ConstellationRef := none
  observability : Option Observability := none
  magnitudeGuidance : Option MagGuidance := none
  discoveryMethodInfo : Option MethodInfo := none

/-! ## science.js — habitable zone -/

/-- Effective-flux quartic of `calculateHabitableZone` (the local `sEff`). -/
def sEff (k : HZCoeffs) (tStar : ℝ) : ℝ :=
  k.S0 + k.a * tStar + k.b * tStar * tStar + k.c * tStar ^ 3 + k.d * tStar ^ 4

/-- Orbital distance of the local `distAU` helper: `sqrt(starLum / sEffVal)`. -/
noncomputable def distAU (starLum sEffVal : ℝ) : ℝ := Real.sqrt (starLum / sEffVal)

/-- Embedding of `calculateHabitableZone(starTeff, starLum)`.  Returns `none`
when either input is `null` or falsy or the luminosity is non-positive
(the source guard `!starTeff || !starLum || starLum <= 0`). -/
noncomputable def calculateHabitableZone (starTeff starLum : Option ℝ) :
    Option HZBoundaries :=
  match starTeff, starLum with
  | some teff, some lum =>
    if teff = 0 ∨ lum ≤ 0 then none
    else
      let tClamped := max 2600 (min 7200 teff)
      let tStar := tClamped - 5780
      some
        { conservativeInner := distAU lum (sEff HZ_runawayGH tStar)
          conservativeOuter := distAU lum (sEff HZ_maxGreenhouse tStar)
          optimisticInner := distAU lum (sEff HZ_recentVenus tStar)
          optimisticOuter := distAU lum (sEff HZ_earlyMars tStar)
          modelValid := decide (2600 ≤ teff ∧ teff ≤ 7200)
          modelNoted := decide (teff < 2600 ∨ teff > 7200)
          reference := "Kopparapu et al. (2013, 2014)" }
  | _, _ => none

/-- The `Unknown` result of `getHZStatus`. -/
def hzUnknown : HZStatus :=
  { conservative := false, optimistic := false, label := "Unknown", hz := none,
    confidence := "low" }

/-- Embedding of `getHZStatus(planet)`. -/
noncomputable def getHZStatus (p : Planet) : HZStatus :=
  match calculateHabitableZone p.starTemp p.starLum with
  | none => hzUnknown
  | some hz =>
    match p.semiMajorAxis with
    | none => hzUnknown
    | some a =>
      if a ≤ 0 then hzUnknown
      else
        let inConservative := decide (hz.conservativeInner ≤ a ∧ a ≤ hz.conservativeOuter)
        let inOptimistic := decide (hz.optimisticInner ≤ a ∧ a ≤ hz.optimisticOuter)
        { conservative := inConservative
          optimistic := inOptimistic
          label :=
            if inConservative then "In Conservative HZ"
            else if inOptimistic then "In Optimistic HZ"
            else if a < hz.optimisticInner then "Too Hot (inside HZ)"
            else "Too Cold (outside HZ)"
          hz := some hz
          confidence := if hz.modelValid then "high" else "moderate" }

/-! ## science.js — Earth Similarity Index -/

/-- Earth reference values (`EARTH` constant). -/
structure EarthRef where
  radius : ℝ
  mass : ℝ
  eqTemp : ℝ
  density : ℝ
  escapeVelocity : ℝ

def EARTH : EarthRef :=
  { radius := 1.0, mass := 1.0, eqTemp := 255, density := 5.51, escapeVelocity := 11.186 }

/-- ESI weight exponents (`ESI_WEIGHTS` constant). -/
structure ESIWeights where
  radius : ℝ
  density : ℝ
  escapeVelocity : ℝ
  surfaceTemp : ℝ

def ESI_WEIGHTS : ESIWeights :=
  { radius := 0.57, density := 1.07, escapeVelocity := 0.70, surfaceTemp := 5.58 }

/-- The local `esiComponent(planetVal, earthVal, weight)` helper.  Its
callers never pass `null`, so the argument is a plain real; the source's
`planetVal <= 0` guard is kept. -/
noncomputable def esiComponent (planetVal earthVal weight : ℝ) : Option ℝ :=
  if planetVal ≤ 0 then none
  else some ((1 - |planetVal - earthVal| / (planetVal + earthVal)) ^ weight)

/-- JS `Math.round(x * 1000) / 1000`. -/
noncomputable def roundMilli (x : ℝ) : ℝ := (jsRound (x * 1000) : ℝ) / 1000

/-- Embedding of `calculateESI(planet)`. -/
noncomputable def calculateESI (p : Planet) : ESIResult :=
  if ¬(jsTruthyNum p.radius) ∨ ¬(jsTruthyNum p.eqTemp) then
    { global := 0, interior := none, surface := none, components := {},
      confidence := "low", note := some "Insufficient data to compute ESI." }
  else
    let r := jsNum p.radius
    let t := jsNum p.eqTemp
    let mass := if jsTruthyNum p.mass then jsNum p.mass else r ^ (2.5 : ℝ)
    let density := mass / r ^ 3 * EARTH.density
    let escapeVelocity := Real.sqrt (mass / r) * EARTH.escapeVelocity
    let components : ESIComponents :=
      { radius := esiComponent r EARTH.radius ESI_WEIGHTS.radius
        density := esiComponent density EARTH.density ESI_WEIGHTS.density
        escapeVelocity := esiComponent escapeVelocity EARTH.escapeVelocity ESI_WEIGHTS.escapeVelocity
        surfaceTemp := esiComponent t EARTH.eqTemp ESI_WEIGHTS.surfaceTemp }
    let interior :=
      match components.radius, components.density with
      | some cr, some cd => some ((cr * cd) ^ (0.5 : ℝ))
      | _, _ => none
    let surface :=
      match components.escapeVelocity, components.surfaceTemp with
      | some ce, some ct => some ((ce * ct) ^ (0.5 : ℝ))
      | _, _ => none
    let validComponents :=
      [components.radius, components.density, components.escapeVelocity,
        components.surfaceTemp].filterMap id
    let global :=
      if 0 < validComponents.length then
        (validComponents.foldl (· * ·) 1) ^ (1 / (validComponents.length : ℝ))
      else (0 : ℝ)
    { global := roundMilli global
      interior := interior.map roundMilli
      surface := surface.map roundMilli
      components := components
      confidence :=
        if p.mass.isSome ∧ p.eqTemp.isSome ∧ ¬p.eqTempEstimated then "high" else "moderate"
      note :=
        if p.mass.isNone then some "Mass estimated from radius using M-R relation."
        else none }

/-! ## science.js — observer utilities -/

/-- The simplified constellation region table (`CONSTELLATIONS`). -/
def CONSTELLATIONS : List CRegion :=
  [ { name := "Andromeda", abbr := "And", raMin := 22.8, raMax := 2.4, decMin := 21, decMax := 53 },
    { name := "Aquarius", abbr := "Aqr", raMin := 20.6, raMax := 23.8, decMin := -25, decMax := 3 },
    { name := "Aquila", abbr := "Aql", raMin := 18.8, raMax := 20.6, decMin := -12, decMax := 18 },
    { name := "Aries", abbr := "Ari", raMin := 1.5, raMax := 3.5, decMin := 10, decMax := 31 },
    { name := "Boötes", abbr := "Boo", raMin := 13.5, raMax := 15.8, decMin := 7, decMax := 55 },
    { name := "Cancer", abbr := "Cnc", raMin := 7.9, raMax := 9.3, decMin := 7, decMax := 33 },
    { name := "Canis Major", abbr := "CMa", raMin := 6.0, raMax := 7.5, decMin := -33, decMax := -11 },
    { name := "Capricornus", abbr := "Cap", raMin := 20.0, raMax := 21.8, decMin := -28, decMax := -8 },
    { name := "Cassiopeia", abbr := "Cas", raMin := 22.5, raMax := 3.5, decMin := 46, decMax := 77 },
    { name := "Centaurus", abbr := "Cen", raMin := 11.0, raMax := 15.0, decMin := -64, decMax := -30 },
    { name := "Cetus", abbr := "Cet", raMin := 23.5, raMax := 3.3, decMin := -25, decMax := 10 },
    { name := "Cygnus", abbr := "Cyg", raMin := 19.1, raMax := 21.8, decMin := 28, decMax := 61 },
    { name := "Draco", abbr := "Dra", raMin := 9.4, raMax := 20.5, decMin := 48, decMax := 86 },
    { name := "Eridanus", abbr := "Eri", raMin := 1.4, raMax := 5.1, decMin := -58, decMax := 0 },
    { name := "Gemini", abbr := "Gem", raMin := 5.9, raMax := 8.1, decMin := 10, decMax := 35 },
    { name := "Hercules", abbr := "Her", raMin := 16.0, raMax := 18.8, decMin := 14, decMax := 51 },
    { name := "Hydra", abbr := "Hya", raMin := 8.1, raMax := 15.0, decMin := -35, decMax := 7 },
    { name := "Leo", abbr := "Leo", raMin := 9.3, raMax := 12.0, decMin := -6, decMax := 33 },
    { name := "Libra", abbr := "Lib", raMin := 14.2, raMax := 16.0, decMin := -30, decMax := 0 },
    { name := "Lyra", abbr := "Lyr", raMin := 18.1, raMax := 19.4, decMin := 25, decMax := 48 },
    { name := "Ophiuchus", abbr := "Oph", raMin := 16.0, raMax := 18.0, decMin := -30, decMax := 14 },
    { name := "Orion", abbr := "Ori", raMin := 4.5, raMax := 6.4, decMin := -11, decMax := 23 },
    { name := "Pegasus", abbr := "Peg", raMin := 21.1, raMax := 0.2, decMin := 2, decMax := 36 },
    { name := "Perseus", abbr := "Per", raMin := 1.4, raMax := 4.5, decMin := 31, decMax := 59 },
    { name := "Pisces", abbr := "Psc", raMin := 22.5, raMax := 2.0, decMin := -6, decMax := 34 },
    { name := "Sagittarius", abbr := "Sgr", raMin := 17.7, raMax := 20.4, decMin := -45, decMax := -12 },
    { name := "Scorpius", abbr := "Sco", raMin := 15.8, raMax := 17.8, decMin := -45, decMax := -8 },
    { name := "Taurus", abbr := "Tau", raMin := 3.3, raMax := 6.0, decMin := 0, decMax := 31 },
    { name := "Ursa Major", abbr := "UMa", raMin := 8.0, raMax := 14.5, decMin := 29, decMax := 73 },
    { name := "Ursa Minor", abbr := "UMi", raMin := 0.0, raMax := 24.0, decMin := 66, decMax := 90 },
    { name := "Virgo", abbr := "Vir", raMin := 11.6, raMax := 15.0, decMin := -22, decMax := 14 },
    { name := "Vela", abbr := "Vel", raMin := 8.0, raMax := 11.0, decMin := -56, decMax := -37 },
    { name := "Puppis", abbr := "Pup", raMin := 6.0, raMax := 8.5, decMin := -50, decMax := -11 },
    { name := "Carina", abbr := "Car", raMin := 6.0, raMax := 11.3, decMin := -75, decMax := -51 },
    { name := "Crux", abbr := "Cru", raMin := 11.9, raMax := 12.6, decMin := -64, decMax := -56 } ]

/-- Embedding of `formatRADec(raDeg, decDeg)` for non-`null` inputs (its only
call site guards both).  `toFixed` results are stored as scaled integers. -/
noncomputable def formatRADec (raDeg decDeg : ℝ) : Coords :=
  let raHf := raDeg / 15
  let raHours : ℤ := ⌊raHf⌋
  let raMinRem := (raHf - raHours) * 60
  let raMin : ℤ := ⌊raMinRem⌋
  let raSecTenths : ℤ := jsRound ((raMinRem - raMin) * 60 * 10)
  let decAbs := |decDeg|
  let decD : ℤ := ⌊decAbs⌋
  let decMinRem := (decAbs - decD) * 60
  let decMin : ℤ := ⌊decMinRem⌋
  let decSec : ℤ := jsRound ((decMinRem - decMin) * 60)
  { raHours := raHf, decDeg := decDeg, raH := raHours, raMin := raMin,
    raSecTenths := raSecTenths, decSignPos := decide (0 ≤ decDeg),
    decD := decD, decMin := decMin, decSec := decSec }

/-- Embedding of `getConstellation(raDeg, decDeg)` for non-`null` inputs (its
only call site guards both).  First matching region wins; regions whose RA
interval wraps through 0h use the disjunctive test of the source. -/
noncomputable def getConstellation (raDeg decDeg : ℝ) : ConstellationRef :=
  let raH := raDeg / 15
  match CONSTELLATIONS.find? (fun c =>
      (if c.raMin > c.raMax then decide (raH ≥ c.raMin ∨ raH ≤ c.raMax)
       else decide (raH ≥ c.raMin ∧ raH ≤ c.raMax))
      && decide (decDeg ≥ c.decMin) && decide (decDeg ≤ c.decMax)) with
  | some c => { name := c.name, abbreviation := c.abbr }
  | none => { name := "Unknown", abbreviation := "---" }

def sunRA : List ℝ := [19.5, 21.5, 23.5, 1.5, 3.5, 5.5, 7.5, 9.5, 11.5, 13.5, 15.5, 17.5]

def monthNames : List String :=
  ["January", "February", "March", "April", "May", "June",
   "July", "August", "September", "October", "November", "December"]

def monthAbbr : List String :=
  ["Jan", "Feb", "Mar", "Apr", "May", "Jun", "Jul", "Aug", "Sep", "Oct", "Nov", "Dec"]

/-- Embedding of `getObservability(raDeg, decDeg)` for non-`null` RA (its only
call site guards `ra` and `dec`, but the function itself re-checks only `dec`
for the hemisphere classification, which is preserved here). -/
noncomputable def getObservability (raDeg : ℝ) (decDeg : Option ℝ) : Observability :=
  let raH := raDeg / 15
  let best :=
    (List.range 12).foldl (fun (acc : ℝ × ℕ) m =>
      let s := sunRA.getD m 0
      let d1 := |raH - s + 12|
      let diff := if d1 > 12 then 24 - d1 else d1
      let d2 := |(raH + 24) - (s + 12)|
      let diff2 := if d2 > 12 then 24 - d2 else d2
      let minDiff := min diff diff2
      if minDiff < acc.1 then (minDiff, m) else acc) (24, 0)
  let bestMonth := best.2
  let seasonStart := (bestMonth + 12 - 2) % 12
  let seasonEnd := (bestMonth + 2) % 12
  let hemisphere :=
    match decDeg with
    | none => "Unknown"
    | some d =>
      if d > 60 then "Northern hemisphere only"
      else if d > 20 then "Best from Northern hemisphere"
      else if d > -20 then "Visible from both hemispheres"
      else if d > -60 then "Best from Southern hemisphere"
      else "Southern hemisphere only"
  let circumpolarN := match decDeg with | none => false | some d => decide (d > 50)
  let circumpolarS := match decDeg with | none => false | some d => decide (d < -50)
  { bestMonth := monthNames.getD bestMonth ""
    bestMonthAbbr := monthAbbr.getD bestMonth ""
    bestMonthIndex := bestMonth
    seasonStart := monthAbbr.getD seasonStart ""
    seasonEnd := monthAbbr.getD seasonEnd ""
    seasonLabel := monthAbbr.getD seasonStart "" ++ "–" ++ monthAbbr.getD seasonEnd ""
    hemisphere := hemisphere
    circumpolarNorth := circumpolarN
    circumpolarSouth := circumpolarS
    note :=
      if circumpolarN then some "Circumpolar from far-northern latitudes (always visible)."
      else if circumpolarS then some "Circumpolar from far-southern latitudes (always visible)."
      else none }

/-- Embedding of `getMagnitudeGuidance(vMag)` for non-`null` input (its only
call site guards `vMag != null`). -/
noncomputable def getMagnitudeGuidance (vMag : ℝ) : MagGuidance :=
  { label :=
      if vMag < 0 then "Very Bright"
      else if vMag < 2 then "Bright"
      else if vMag < 4 then "Moderate"
      else if vMag < 6 then "Dim"
      else if vMag < 8 then "Binocular"
      else if vMag < 10 then "Small Telescope"
      else if vMag < 13 then "Medium Telescope"
      else if vMag < 16 then "Large Telescope"
      else "Professional Only"
    magnitude := vMag
    confidence := "high" }

/-! ## science.js — discovery method metadata -/

/-- The `DISCOVERY_METHODS` table, reduced to its non-prose fields. -/
def DISCOVERY_METHODS : List (String × MethodInfo) :=
  [ ("Transit", { id := "transit", name := "Transit", animationType := "transit" }),
    ("Radial Velocity",
      { id := "radialVelocity", name := "Radial Velocity", animationType := "radialVelocity" }),
    ("Direct Imaging",
      { id := "directImaging", name := "Direct Imaging", animationType := "directImaging" }),
    ("Microlensing",
      { id := "microlensing", name := "Gravitational Microlensing", animationType := "microlensing" }),
    ("Timing", { id := "timing", name := "Timing Variations", animationType := "timing" }),
    ("Astrometry", { id := "astrometry", name := "Astrometry", animationType := "astrometry" }),
    ("Transit Timing Variations",
      { id := "ttv", name := "Transit Timing Variations", animationType := "timing" }),
    ("Imaging", { id := "imaging", name := "Direct Imaging", animationType := "directImaging" }),
    ("Eclipse Timing Variations",
      { id := "etv", name := "Eclipse Timing Variations", animationType := "timing" }),
    ("Pulsar Timing", { id := "pulsarTiming", name := "Pulsar Timing", animationType := "timing" }),
    ("Orbital Brightness Modulation",
      { id := "obm", name := "Orbital Brightness Modulation", animationType := "transit" }),
    ("Disk Kinematics",
      { id := "diskKinematics", name := "Disk Kinematics", animationType := "directImaging" }) ]

/-- The `METHOD_ALIASES` normalisation table. -/
def METHOD_ALIASES : List (String × String) :=
  [ ("Transit", "Transit"),
    ("Radial Velocity", "Radial Velocity"),
    ("Direct Imaging", "Direct Imaging"),
    ("Microlensing", "Microlensing"),
    ("Imaging", "Direct Imaging"),
    ("Astrometry", "Astrometry"),
    ("Transit Timing Variations", "Transit Timing Variations"),
    ("Eclipse Timing Variations", "Eclipse Timing Variations"),
    ("Pulsar Timing", "Pulsar Timing"),
    ("Pulsation Timing Variations", "Timing"),
    ("Orbital Brightness Modulation", "Orbital Brightness Modulation"),
    ("Disk Kinematics", "Disk Kinematics") ]

/-- Embedding of `getDiscoveryMethodInfo(methodName)`. -/
def getDiscoveryMethodInfo (methodName : Option String) : Option MethodInfo :=
  if !jsTruthyStr methodName then none
  else
    let s := methodName.getD ""
    let normalized := (METHOD_ALIASES.lookup s).getD s
    match DISCOVERY_METHODS.lookup normalized with
    | some info => some info
    | none => DISCOVERY_METHODS.lookup s

/-! ## science.js — enrichment entrypoint -/

/-- Embedding of `enrichPlanet(planet)`: attaches all derived fields in one
pass.  Fields guarded by a condition in the source keep their previous value
when the condition fails (the JS assignment simply does not run). -/
noncomputable def enrichPlanet (p : Planet) : Planet :=
  { p with
    hzStatus := some (getHZStatus p)
    esi := some (calculateESI p)
    coords :=
      if p.ra.isSome && p.dec.isSome then some (formatRADec (jsNum p.ra) (jsNum p.dec))
      else p.coords
    constellation :=
      if p.ra.isSome && p.dec.isSome then some (getConstellation (jsNum p.ra) (jsNum p.dec))
      else p.constellation
    observability :=
      if p.ra.isSome && p.dec.isSome then some (getObservability (jsNum p.ra) p.dec)
      else p.observability
    magnitudeGuidance :=
      if p.vMag.isSome then some (getMagnitudeGuidance (jsNum p.vMag))
      else p.magnitudeGuidance
    discoveryMethodInfo :=
      if jsTruthyStr p.discoveryMethod then getDiscoveryMethodInfo p.discoveryMethod
      else p.discoveryMethodInfo }

/-! ## nasa-data.js — raw records and field mapping -/

/-- A raw row of the NASA TAP response, restricted to the columns that
`mapNASARecord` reads. -/
structure RawRec where
  pl_name : Option String := none
  hostname : Option String := none
  sy_dist : Option ℝ := none
  pl_rade : Option ℝ := none
  pl_bmasse : Option ℝ := none
  pl_orbper : Option ℝ := none
  pl_orbsmax : Option ℝ := none
  pl_eqt : Option ℝ := none
  st_spectype : Option String := none
  st_teff : Option ℝ := none
  st_mass : Option ℝ := none
  st_lum : Option ℝ := none
  disc_year : Option ℝ := none
  discoverymethod : Option String := none
  disc_facility : Option String := none
  disc_refname : Option String := none
  ra : Option ℝ := none
  dec : Option ℝ := none
  sy_vmag : Option ℝ := none
  sy_kmag : Option ℝ := none
  pl_orbeccen : Option ℝ := none
  pl_orbincl : Option ℝ := none
  pl_controv_flag : Option ℝ := none

def PARSEC_TO_LY : ℝ := 3.26156

/-- JS `Math.round` followed by the implicit number representation. -/
noncomputable def jsRoundR (x : ℝ) : ℝ := (jsRound x : ℝ)

/-- The regex replacement `pl_name.replace(/\s[b-i]$/i, '')`: strip one
trailing whitespace-plus-letter-`b`..`i` planet designator. -/
def stripDesignator (s : String) : String :=
  match s.data.reverse with
  | c :: sp :: rest =>
    if sp.isWhitespace && ('b' ≤ c.toLower && c.toLower ≤ 'i') then ⟨rest.reverse⟩ else s
  | _ => s

/-- Embedding of `mapNASARecord(raw)`. -/
noncomputable def mapNASARecord (raw : RawRec) : Planet :=
  let distance := raw.sy_dist.map (· * PARSEC_TO_LY)
  let starLum := raw.st_lum.map (fun x => (10 : ℝ) ^ x)
  { name := if jsTruthyStr raw.pl_name then raw.pl_name.getD "" else "Unknown"
    system :=
      if jsTruthyStr raw.hostname then raw.hostname.getD ""
      else
        match raw.pl_name with
        | some n => if jsTruthyStr (some (stripDesignator n)) then stripDesignator n else "Unknown"
        | none => "Unknown"
    distance := distance
    radius := raw.pl_rade
    mass := raw.pl_bmasse
    period := raw.pl_orbper
    semiMajorAxis := raw.pl_orbsmax
    eqTemp := raw.pl_eqt.map jsRoundR
    eccentricity := raw.pl_orbeccen
    inclination := raw.pl_orbincl
    starType := match raw.st_spectype with
      | some s => if s.isEmpty then none else some s
      | none => none
    starTemp := raw.st_teff.map jsRoundR
    starMass := raw.st_mass
    starLum := starLum
    starLumLog := raw.st_lum
    discovered := raw.disc_year
    discoveryMethod := match raw.discoverymethod with
      | some s => if s.isEmpty then none else some s
      | none => none
    discoveryFacility := match raw.disc_facility with
      | some s => if s.isEmpty then none else some s
      | none => none
    discoveryRef := match raw.disc_refname with
      | some s => if s.isEmpty then none else some s
      | none => none
    ra := raw.ra
    dec := raw.dec
    vMag := raw.sy_vmag
    kMag := raw.sy_kmag
    controversial := raw.pl_controv_flag = some 1
    source := "NASA Exoplanet Archive"
    nasaRaw := true }

/-! ## nasa-data.js — validation and cleaning -/

/-- The `report.nullFields` tally. -/
structure NullFields where
  distance : ℕ := 0
  radius : ℕ := 0
  mass : ℕ := 0
  eqTemp : ℕ := 0
  period : ℕ := 0
  semiMajorAxis : ℕ := 0

/-- One entry of `report.badValues`. -/
structure BadEntry where
  name : String
  field : String
  value : ℝ

/-- One entry of `report.duplicates`. -/
structure NameCount where
  name : String
  count : ℕ

/-- The `ValidationReport` produced by `validateAndClean` (the formatted
`stats` block added later by `computeValidationReport` is elided — no
pipeline decision reads it). -/
structure VReport where
  totalInput : ℕ
  nullFields : NullFields
  badValues : List BadEntry
  duplicates : List NameCount
  controversial : ℕ
  cleaned : ℕ
  passed : ℕ
  totalOutput : ℕ

/-- Bump the per-name counter, preserving JS object insertion order (planet
names are non-integer-like keys, so `Object.entries` yields insertion
order). -/
def bumpName : List NameCount → String → List NameCount
  | [], n => [{ name := n, count := 1 }]
  | e :: rest, n =>
    if e.name = n then { name := e.name, count := e.count + 1 } :: rest
    else e :: bumpName rest n

/-- The `nameCounts` pass of `validateAndClean`. -/
def countNames (ps : List Planet) : List NameCount :=
  ps.foldl (fun acc p => bumpName acc p.name) []

/-- The `report.duplicates` list: names occurring more than once. -/
def dupList (ps : List Planet) : List NameCount :=
  (countNames ps).filter (fun e => 1 < e.count)

/-- The bad-value checks of `validateAndClean` for one record (lines
flagging radius, mass, distance and eqTemp).  The `bad` boolean of the
source is dead — both of its branches retain the record — so only the
report entries are produced. -/
noncomputable def badEntries (p : Planet) : List BadEntry :=
  (match p.radius with
   | some r => if r ≤ 0 ∨ r > 100 then [{ name := p.name, field := "radius", value := r }] else []
   | none => []) ++
  (match p.mass with
   | some m => if m ≤ 0 ∨ m > 100000 then [{ name := p.name, field := "mass", value := m }] else []
   | none => []) ++
  (match p.distance with
   | some d => if d ≤ 0 then [{ name := p.name, field := "distance", value := d }] else []
   | none => []) ++
  (match p.eqTemp with
   | some t => if t < 2 ∨ t > 10000 then [{ name := p.name, field := "eqTemp", value := t }] else []
   | none => [])

/-- The default-filling block of `validateAndClean` (applied to every
retained record, in source order: distance, radius, mass, eqTemp, period,
semiMajorAxis; the mass and eqTemp estimates read the already-defaulted
radius and the original semiMajorAxis respectively). -/
noncomputable def cleanRecord (p : Planet) : Planet :=
  let distance := match p.distance with | some d => d | none => 0
  let radius := match p.radius with | some r => r | none => 1.0
  let mass :=
    match p.mass with
    | some m => m
    | none => if radius > 4 then radius * 5 else radius ^ (2.5 : ℝ)
  let eqTempPair : ℝ × Bool :=
    match p.eqTemp with
    | some t => (t, p.eqTempEstimated)
    | none =>
      (match p.starLum, p.semiMajorAxis with
       | some lum, some a =>
         if a > 0 then jsRoundR (278 * lum ^ (0.25 : ℝ) / Real.sqrt a) else 300
       | _, _ => 300, true)
  { p with
    distance := some distance
    radius := some radius
    mass := some mass
    eqTemp := some eqTempPair.1
    eqTempEstimated := eqTempPair.2
    period := some (match p.period with | some x => x | none => 0)
    semiMajorAxis := some (match p.semiMajorAxis with | some x => x | none => 0) }

/-- Mutable state of the main loop of `validateAndClean`. -/
structure VacState where
  cleaned : List Planet := []
  seen : List String := []
  nulls : NullFields := {}
  badValues : List BadEntry := []
  controversial : ℕ := 0
  cleanedCount : ℕ := 0
  passed : ℕ := 0

/-- The main `for (const p of planets)` loop of `validateAndClean`. -/
noncomputable def vacLoop (s : VacState) : List Planet → VacState
  | [] => s
  | p :: rest =>
    if p.name ∈ s.seen then
      vacLoop { s with cleanedCount := s.cleanedCount + 1 } rest
    else
      vacLoop
        { cleaned := s.cleaned ++ [cleanRecord p]
          seen := p.name :: s.seen
          nulls :=
            { distance := s.nulls.distance + (if p.distance.isNone then 1 else 0)
              radius := s.nulls.radius + (if p.radius.isNone then 1 else 0)
              mass := s.nulls.mass + (if p.mass.isNone then 1 else 0)
              eqTemp := s.nulls.eqTemp + (if p.eqTemp.isNone then 1 else 0)
              period := s.nulls.period + (if p.period.isNone then 1 else 0)
              semiMajorAxis := s.nulls.semiMajorAxis + (if p.semiMajorAxis.isNone then 1 else 0) }
          badValues := s.badValues ++ badEntries p
          controversial := s.controversial + (if p.controversial then 1 else 0)
          cleanedCount := s.cleanedCount
          passed := s.passed + 1 }
        rest

/-- Return value of `validateAndClean`. -/
structure VacResult where
  planets : List Planet
  report : VReport

/-- Embedding of `validateAndClean(planets)`. -/
noncomputable def validateAndClean (ps : List Planet) : VacResult :=
  let s := vacLoop {} ps
  { planets := s.cleaned
    report :=
      { totalInput := ps.length
        nullFields := s.nulls
        badValues := s.badValues
        duplicates := dupList ps
        controversial := s.controversial
        cleaned := s.cleanedCount
        passed := s.passed
        totalOutput := s.cleaned.length } }

/-- Embedding of `computeValidationReport(planets, report)`: it spreads the
report and attaches a `stats` block of formatted medians and aggregates that
nothing in the pipeline reads; with `stats` elided the report is returned
unchanged. -/
def computeValidationReport (r : VReport) : VReport := r

/-! ## nasa-data.js — cache management and pipeline orchestration -/

def CACHE_VERSION : ℕ := 2

def CACHE_MAX_AGE_MS : ℤ := 24 * 60 * 60 * 1000

def CACHE_STALE_AGE_MS : ℤ := 7 * 24 * 60 * 60 * 1000

/-- The cache metadata entry (`CACHE_META_KEY`). -/
structure CacheMeta where
  version : ℕ
  fetchedAt : ℤ
  recordCount : ℕ := 0
  report : Option VReport := none
  truncated : Bool := false
  cachedCount : ℕ := 0

/-- Embedding of `isCacheFresh()`: `Date.now()` and the parsed metadata are
passed explicitly (a corrupted or absent entry reads as `none`). -/
def isCacheFresh (now : ℤ) (meta : Option CacheMeta) : Bool :=
  match meta with
  | none => false
  | some m =>
    if m.version ≠ CACHE_VERSION then false
    else decide (now - m.fetchedAt < CACHE_MAX_AGE_MS)

/-- Embedding of `isCacheUsable()`. -/
def isCacheUsable (now : ℤ) (meta : Option CacheMeta) : Bool :=
  match meta with
  | none => false
  | some m =>
    if m.version ≠ CACHE_VERSION then false
    else decide (now - m.fetchedAt < CACHE_STALE_AGE_MS)

/-- Embedding of `formatAge(timestamp)`. -/
def formatAge (now ts : ℤ) : String :=
  let ms := now - ts
  let hours := Int.fdiv ms 3600000
  if hours < 1 then "less than 1 hour"
  else if hours < 24 then toString hours ++ " hour" ++ (if hours > 1 then "s" else "")
  else
    let days := Int.fdiv hours 24
    toString days ++ " day" ++ (if days > 1 then "s" else "")

/-- The browser environment visible to the pipeline: the clock, the two
parsed `localStorage` entries (parse or storage errors read as `none`), the
outcome that `fetchNASAData` would produce, and a serialisation-length
oracle standing in for `JSON.stringify(...).length`. -/
structure Env where
  now : ℤ
  cacheMeta : Option CacheMeta
  cacheData : Option (List Planet)
  fetchResult : Except String (List RawRec)
  jsonLen : List Planet → ℕ

/-- Embedding of `setCachedData(data, meta)`: truncate to 80% of the record
count when the serialised form exceeds the 4.5MB budget
(`Math.floor(len * 0.8)` is exactly `len * 4 / 5` in integers). -/
def setCachedData (env : Env) (data : List Planet) (meta : CacheMeta) : Env :=
  if env.jsonLen data > 4718592 then
    let trimmed := data.take (data.length * 4 / 5)
    { env with
      cacheData := some trimmed
      cacheMeta := some { meta with truncated := true, cachedCount := trimmed.length } }
  else
    { env with
      cacheData := some data
      cacheMeta := some { meta with truncated := false, cachedCount := data.length } }

/-- Return value of `loadNASAPlanets`. -/
structure LoadResult where
  planets : Option (List Planet)
  report : Option VReport
  source : String
  fetchedAt : Option ℤ
  fromCache : Bool
  error : Option String := none

/-- The ultimate built-in fallback result (step 4 of the pipeline). -/
def builtinFallback (env : Env) (msg : String) : Env × LoadResult :=
  (env,
    { planets := none, report := none, source := "built-in fallback",
      fetchedAt := none, fromCache := false, error := some msg })

/-- The success path of the `try` block of `loadNASAPlanets`:
map → validate/clean → summary stats → cache write → tagged live result. -/
noncomputable def fetchOk (env : Env) (rawData : List RawRec) : Env × LoadResult :=
  let mapped := rawData.map mapNASARecord
  let res := validateAndClean mapped
  let fullReport := computeValidationReport res.report
  let fetchedAt := env.now
  let env2 := setCachedData env res.planets
    { version := CACHE_VERSION, fetchedAt := fetchedAt,
      recordCount := res.planets.length, report := some fullReport }
  (env2,
    { planets := some res.planets, report := some fullReport,
      source := "NASA Exoplanet Archive (live)", fetchedAt := some fetchedAt,
      fromCache := false })

/-- The `catch` block of `loadNASAPlanets`: stale-cache fallback (step 3),
then built-in fallback (step 4). -/
noncomputable def fetchFail (env : Env) (msg : String) : Env × LoadResult :=
  if isCacheUsable env.now env.cacheMeta then
    match env.cacheData, env.cacheMeta with
    | some cached, some meta =>
      if 0 < cached.length then
        (env,
          { planets := some cached, report := meta.report,
            source := "cache (stale, " ++ formatAge env.now meta.fetchedAt ++ " old)",
            fetchedAt := some meta.fetchedAt, fromCache := true, error := some msg })
      else builtinFallback env msg
    | _, _ => builtinFallback env msg
  else builtinFallback env msg

/-- Steps 2–4 of `loadNASAPlanets`: the `try { fetch ... } catch` block. -/
noncomputable def fetchBranch (env : Env) : Env × LoadResult :=
  match env.fetchResult with
  | .ok rawData => fetchOk env rawData
  | .error msg => fetchFail env msg

/-- Embedding of `loadNASAPlanets(onProgress)`.  The progress callback is
purely observational and not modelled; the function returns the updated
environment (cache writes) together with the tagged result. -/
noncomputable def loadNASAPlanets (env : Env) : Env × LoadResult :=
  if isCacheFresh env.now env.cacheMeta then
    match env.cacheData, env.cacheMeta with
    | some cached, some meta =>
      if 0 < cached.length then
        (env,
          { planets := some cached, report := meta.report, source := "cache (fresh)",
            fetchedAt := some meta.fetchedAt, fromCache := true })
      else fetchBranch env
    | _, _ => fetchBranch env
  else fetchBranch env

/-! ## database.js — search, filter and sort -/

/-- A JS primitive value as it appears as a sort key (`a[sortBy]`):
a number, a string, or `null`/`undefined`. -/
inductive JSVal where
  | num (x : ℝ)
  | str (s : String)
  | null

/-- A sort key after the comparator's preprocessing: lower-cased strings and
`null` replaced by `±Infinity`. -/
inductive JSKey where
  | fin (x : ℝ)
  | pinf
  | ninf
  | str (s : String)

/-- The filter settings accepted by `searchPlanets` (absent fields are
`undefined`). -/
structure Filters where
  type : Option String := none
  minHabitability : Option ℝ := none
  maxDistance : Option ℝ := none
  minDistance : Option ℝ := none
  minTemp : Option ℝ := none
  maxTemp : Option ℝ := none
  minRadius : Option ℝ := none
  maxRadius : Option ℝ := none
  starType : Option String := none
  discoveredAfter : Option ℝ := none
  discoveryMethod : Option String := none
  inHZ : Option String := none
  minESI : Option ℝ := none
  sortBy : Option String := none
  sortDir : Option String := none

/-- The sort key `va` read by the comparator: the special `esi` case, the
primitive-valued record fields addressable as `a[sortBy]`, and `null` for
anything else (absent fields read as `undefined`). -/
def sortKeyOf (p : Planet) (sortBy : String) : JSVal :=
  if sortBy = "esi" then
    .num (match p.esi with | some e => e.global | none => 0)
  else if sortBy = "name" then .str p.name
  else if sortBy = "system" then .str p.system
  else if sortBy = "type" then .str p.type
  else if sortBy = "habitability" then .num p.habitability
  else if sortBy = "distance" then (match p.distance with | some x => .num x | none => .null)
  else if sortBy = "radius" then (match p.radius with | some x => .num x | none => .null)
  else if sortBy = "mass" then (match p.mass with | some x => .num x | none => .null)
  else if sortBy = "period" then (match p.period with | some x => .num x | none => .null)
  else if sortBy = "semiMajorAxis" then
    (match p.semiMajorAxis with | some x => .num x | none => .null)
  else if sortBy = "eqTemp" then (match p.eqTemp with | some x => .num x | none => .null)
  else if sortBy = "discovered" then (match p.discovered with | some x => .num x | none => .null)
  else if sortBy = "starType" then (match p.starType with | some s => .str s | none => .null)
  else if sortBy = "vMag" then (match p.vMag with | some x => .num x | none => .null)
  else .null

/-- The comparator preprocessing: strings are lower-cased, `null` becomes
`+Infinity` for ascending and `-Infinity` otherwise. -/
def toKey (sortDir : String) : JSVal → JSKey
  | .num x => .fin x
  | .str s => .str (jsToLower s)
  | .null => if sortDir = "asc" then .pinf else .ninf

/-- JS `<` on preprocessed sort keys.  A string compared with a number (or
`±Infinity`) coerces via `ToNumber` to `NaN`, making both `<` and `>`
false; catalog strings are non-numeric, so that outcome is hard-coded. -/
noncomputable def jsKeyLt : JSKey → JSKey → Bool
  | .fin x, .fin y => decide (x < y)
  | .fin _, .pinf => true
  | .pinf, .fin _ => false
  | .ninf, .fin _ => true
  | .fin _, .ninf => false
  | .pinf, .pinf => false
  | .ninf, .ninf => false
  | .ninf, .pinf => true
  | .pinf, .ninf => false
  | .str a, .str b => strLtB a b
  | .str _, _ => false
  | _, .str _ => false

/-- The sort comparator of `searchPlanets` (`-1`, `0`, `1`). -/
noncomputable def sortCmp (sortBy sortDir : String) (a b : Planet) : ℤ :=
  let ka := toKey sortDir (sortKeyOf a sortBy)
  let kb := toKey sortDir (sortKeyOf b sortBy)
  if jsKeyLt ka kb then (if sortDir = "asc" then -1 else 1)
  else if jsKeyLt kb ka then (if sortDir = "asc" then 1 else -1)
  else 0

/-- JS `Array.prototype.sort` is required to be stable; it is modelled by a
stable insertion sort.  `insertSorted` places `x` before the first element
it does not strictly follow. -/
noncomputable def insertSorted (le : Planet → Planet → Bool) (x : Planet) :
    List Planet → List Planet
  | [] => [x]
  | y :: ys => if le x y then x :: y :: ys else y :: insertSorted le x ys

/-- Stable sort of the filtered results. -/
noncomputable def jsSort (le : Planet → Planet → Bool) : List Planet → List Planet
  | [] => []
  | x :: xs => insertSorted le x (jsSort le xs)

/-- The `≤`-relation induced by the three-way comparator. -/
noncomputable def sortLe (f : Filters) (a b : Planet) : Bool :=
  let sortBy := match f.sortBy with | some s => if s.isEmpty then "name" else s | none => "name"
  let sortDir := match f.sortDir with | some s => if s.isEmpty then "asc" else s | none => "asc"
  decide (sortCmp sortBy sortDir a b ≤ 0)

/-- The filter pipeline of `searchPlanets`, in source order: each list entry
is one `results = results.filter(...)` statement whose guard held.
Possibly-`null` numeric fields coerce through `ToNumber(null) = 0` in the
range comparisons, as in JS. -/
noncomputable def searchStages (query : String) (f : Filters) : List (Planet → Bool) :=
  let textStage : List (Planet → Bool) :=
    if !query.isEmpty && !(jsTrim query).isEmpty then
      let q := jsToLower (jsTrim query)
      [fun p =>
        strIncludes (jsToLower p.name) q ||
        strIncludes (jsToLower p.system) q ||
        strIncludes (jsToLower p.type) q ||
        (match p.discoveryMethod with
         | some dm => strIncludes (jsToLower dm) q
         | none => false) ||
        (match p.constellation with
         | some c => !c.name.isEmpty && strIncludes (jsToLower c.name) q
         | none => false)]
    else []
  let typeStage : List (Planet → Bool) :=
    match f.type with
    | some t => if t.isEmpty then [] else [fun p => p.type = t]
    | none => []
  let minHabStage : List (Planet → Bool) :=
    match f.minHabitability with
    | some m => [fun p => decide (p.habitability ≥ m)]
    | none => []
  let maxDistStage : List (Planet → Bool) :=
    match f.maxDistance with
    | some m => [fun p => decide (jsNum p.distance ≤ m)]
    | none => []
  let minDistStage : List (Planet → Bool) :=
    match f.minDistance with
    | some m => [fun p => decide (jsNum p.distance ≥ m)]
    | none => []
  let minTempStage : List (Planet → Bool) :=
    match f.minTemp with
    | some m => [fun p => decide (jsNum p.eqTemp ≥ m)]
    | none => []
  let maxTempStage : List (Planet → Bool) :=
    match f.maxTemp with
    | some m => [fun p => decide (jsNum p.eqTemp ≤ m)]
    | none => []
  let minRadiusStage : List (Planet → Bool) :=
    match f.minRadius with
    | some m => [fun p => decide (jsNum p.radius ≥ m)]
    | none => []
  let maxRadiusStage : List (Planet → Bool) :=
    match f.maxRadius with
    | some m => [fun p => decide (jsNum p.radius ≤ m)]
    | none => []
  let starTypeStage : List (Planet → Bool) :=
    match f.starType with
    | some st =>
      if st.isEmpty then []
      else [fun p =>
        match p.starType with
        | some s => !s.isEmpty && strStarts s st
        | none => false]
    | none => []
  let discoveredStage : List (Planet → Bool) :=
    match f.discoveredAfter with
    | some y => if y = 0 then [] else [fun p => decide (jsNum p.discovered ≥ y)]
    | none => []
  let methodStage : List (Planet → Bool) :=
    match f.discoveryMethod with
    | some dm => if dm.isEmpty then [] else [fun p => p.discoveryMethod = some dm]
    | none => []
  let hzStage : List (Planet → Bool) :=
    if f.inHZ = some "conservative" then
      [fun p => match p.hzStatus with | some h => h.conservative | none => false]
    else if f.inHZ = some "optimistic" then
      [fun p => match p.hzStatus with | some h => h.optimistic | none => false]
    else []
  let esiStage : List (Planet → Bool) :=
    match f.minESI with
    | some m => [fun p => match p.esi with | some e => decide (e.global ≥ m) | none => false]
    | none => []
  textStage ++ typeStage ++ minHabStage ++ maxDistStage ++ minDistStage ++
    minTempStage ++ maxTempStage ++ minRadiusStage ++ maxRadiusStage ++
    starTypeStage ++ discoveredStage ++ methodStage ++ hzStage ++ esiStage

/-- The filtered (not yet sorted) result list. -/
noncomputable def searchFiltered (catalog : List Planet) (query : String) (f : Filters) :
    List Planet :=
  (searchStages query f).foldl (fun acc pr => acc.filter pr) catalog

/-- Embedding of `searchPlanets(query, filters)` as a pure function of the
catalog contents. -/
noncomputable def searchPlanets (catalog : List Planet) (query : String) (f : Filters) :
    List Planet :=
  jsSort (sortLe f) (searchFiltered catalog query f)

/-! ## database.js — heap model of `searchPlanets` allocations

`searchPlanets` starts from a spread copy of the module-level catalog array,
each `filter` allocates a fresh array, and the final `sort` mutates the
array it is called on in place.  A small array heap makes those effects
explicit. -/

/-- An array heap: references are indices into the allocation list. -/
structure Heap where
  arrays : List (List Planet)

/-- Dereference (out-of-range reads yield the empty array; never exercised). -/
def Heap.read (h : Heap) (r : ℕ) : List Planet := h.arrays.getD r []

/-- Allocate a fresh array. -/
def Heap.alloc (h : Heap) (v : List Planet) : Heap × ℕ :=
  (⟨h.arrays ++ [v]⟩, h.arrays.length)

/-- In-place update of an existing array (JS `Array.prototype.sort`). -/
def Heap.write (h : Heap) (r : ℕ) (v : List Planet) : Heap :=
  ⟨h.arrays.set r v⟩

/-- Heap-level embedding of `searchPlanets`: `[...PLANET_CATALOG]` allocates
the working copy, every executed `filter` allocates a fresh array, and the
final `sort` writes in place to the last allocated array, whose reference is
returned. -/
noncomputable def searchPlanetsProg (h0 : Heap) (catalogRef : ℕ) (query : String)
    (f : Filters) : Heap × ℕ :=
  let start := h0.alloc (h0.read catalogRef)
  let filtered :=
    (searchStages query f).foldl
      (fun (hr : Heap × ℕ) pr => hr.1.alloc ((hr.1.read hr.2).filter pr)) start
  let sorted := jsSort (sortLe f) (filtered.1.read filtered.2)
  (filtered.1.write filtered.2 sorted, filtered.2)


/-! ## Concrete records used as claim instances -/

/-- A record carrying negative radius, mass and distance (all other checked
fields in range). -/
def badPlanetC3 : Planet :=
  { name := "Bad", radius := some (-5), mass := some (-3), distance := some (-2),
    eqTemp := some 255, period := some 10, semiMajorAxis := some 1 }

/-- First of two records sharing the name `"dup"`. -/
def dupPlanetA : Planet :=
  { name := "dup", radius := some 1, mass := some 1, distance := some 10,
    eqTemp := some 255, period := some 1, semiMajorAxis := some 1 }

/-- Second of two records sharing the name `"dup"`. -/
def dupPlanetB : Planet := { name := "dup", radius := some 2 }

/-- An exact Earth twin: radius 1, mass 1, equilibrium temperature 255 K. -/
def earthTwin : Planet :=
  { name := "Earth twin", radius := some 1, mass := some 1, eqTemp := some 255 }

/-- A record with no spectral type (`starType = null`). -/
def pNullStar : Planet := { name := "a" }

/-- A record with spectral type `"M2V"`. -/
def pMStar : Planet := { name := "b", starType := some "M2V" }

/-- Valuation of a preprocessed sort key in the extended reals (strings are
given an arbitrary value; it is only used on numeric keys). -/
noncomputable def keyER : JSKey → EReal
  | .fin x => (x : EReal)
  | .pinf => ⊤
  | .ninf => ⊥
  | .str _ => 0

/-! ## Helper lemmas -/

theorem isCacheFresh_implies_usable (now : ℤ) (meta : Option CacheMeta)
    (h : isCacheFresh now meta = true) : isCacheUsable now meta = true := by
  cases meta with
  | none => simp [isCacheFresh] at h
  | some m =>
    simp only [isCacheFresh, isCacheUsable] at *
    split at h
    · exact absurd h (by simp)
    · split
      · simp_all
      · simp only [decide_eq_true_eq] at *
        unfold CACHE_MAX_AGE_MS at h
        unfold CACHE_STALE_AGE_MS
        omega

/-! ## Claims -/

/-- C5: assuming the stored metadata version matches the current schema
version, `isCacheFresh` holds iff the entry is less than 24 hours old and
`isCacheUsable` holds iff it is less than 7 days old; concretely, an entry
aged 23h59m is fresh, one aged 24h01m is not fresh but usable, and one aged
7d1h is neither. -/
theorem cache_staleness_C5 :
    (∀ (now : ℤ) (m : CacheMeta), m.version = CACHE_VERSION →
      ((isCacheFresh now (some m) = true ↔ now - m.fetchedAt < 24 * 60 * 60 * 1000) ∧
       (isCacheUsable now (some m) = true ↔ now - m.fetchedAt < 7 * 24 * 60 * 60 * 1000))) ∧
    (∀ now : ℤ,
      (isCacheFresh now (some { version := 2, fetchedAt := now - (23 * 3600000 + 59 * 60000) }) = true) ∧
      (isCacheFresh now (some { version := 2, fetchedAt := now - (24 * 3600000 + 60000) }) = false ∧
       isCacheUsable now (some { version := 2, fetchedAt := now - (24 * 3600000 + 60000) }) = true) ∧
      (isCacheFresh now (some { version := 2, fetchedAt := now - (7 * 86400000 + 3600000) }) = false ∧
       isCacheUsable now (some { version := 2, fetchedAt := now - (7 * 86400000 + 3600000) }) = false)) := by
  constructor
  · intro now m hv
    have h2 : m.version = 2 := hv
    simp only [isCacheFresh, isCacheUsable, h2, CACHE_VERSION, CACHE_MAX_AGE_MS,
      CACHE_STALE_AGE_MS, ne_eq, not_true_eq_false, if_false, decide_eq_true_eq]
    exact ⟨trivial, trivial⟩
  · intro now
    refine ⟨?_, ⟨?_, ?_⟩, ?_, ?_⟩ <;>
      · simp only [isCacheFresh, isCacheUsable, CACHE_VERSION, CACHE_MAX_AGE_MS,
          CACHE_STALE_AGE_MS, ne_eq, not_true_eq_false, if_false, decide_eq_true_eq,
          decide_eq_false_iff_not, not_lt]
        omega

/-- C5 witness: instantiation of the general characterisation at a concrete
clock value and metadata record. -/
theorem cache_staleness_C5_witness :
    ({ version := 2, fetchedAt := 1700000000000 } : CacheMeta).version = CACHE_VERSION ∧
    (isCacheFresh 1700000010000 (some { version := 2, fetchedAt := 1700000000000 }) = true ↔
      (1700000010000 : ℤ) - 1700000000000 < 24 * 60 * 60 * 1000) := by
  refine ⟨rfl, ?_⟩
  exact (cache_staleness_C5.1 1700000010000 { version := 2, fetchedAt := 1700000000000 } rfl).1


theorem fetchBranch_error (env : Env) (msg : String)
    (h : env.fetchResult = .error msg) : fetchBranch env = fetchFail env msg := by
  unfold fetchBranch
  rw [h]

theorem load_not_fresh (env : Env) (h : isCacheFresh env.now env.cacheMeta = false) :
    loadNASAPlanets env = fetchBranch env := by
  unfold loadNASAPlanets
  rw [h]
  simp

theorem fetchFail_builtin (env : Env) (msg : String)
    (h : ¬ (isCacheUsable env.now env.cacheMeta = true ∧
      ∃ c, env.cacheData = some c ∧ 0 < c.length)) :
    fetchFail env msg = builtinFallback env msg := by
  unfold fetchFail
  by_cases hu : isCacheUsable env.now env.cacheMeta = true
  · rw [if_pos hu]
    cases hcd : env.cacheData with
    | none => cases env.cacheMeta <;> rfl
    | some cached =>
      cases hcm : env.cacheMeta with
      | none => rfl
      | some meta =>
        have hlen : ¬ 0 < cached.length := fun hl => h ⟨hu, cached, hcd, hl⟩
        simp only [hlen, if_false]
  · rw [if_neg hu]

theorem fetchFail_stale (env : Env) (msg : String) (cached : List Planet)
    (meta : CacheMeta) (hcd : env.cacheData = some cached)
    (hcm : env.cacheMeta = some meta) (hlen : 0 < cached.length)
    (hu : isCacheUsable env.now env.cacheMeta = true) :
    fetchFail env msg =
      (env,
        { planets := some cached, report := meta.report,
          source := "cache (stale, " ++ formatAge env.now meta.fetchedAt ++ " old)",
          fetchedAt := some meta.fetchedAt, fromCache := true, error := some msg }) := by
  unfold fetchFail
  rw [if_pos hu, hcd, hcm]
  simp only [hlen, if_true]

/-- C1: when the remote fetch fails, `loadNASAPlanets` still resolves to a
tagged result: with no usable (version-matching, ≤7-day-old, non-empty)
cache it returns `records = null` tagged `"built-in fallback"` and carrying
the fetch error message; with a usable (necessarily stale, since a fresh
non-empty cache short-circuits before any fetch) cache it returns the cached
records with a `source` tag containing `"stale"` and the original error
message. -/
theorem load_fallback_C1 :
    ∀ (env : Env) (msg : String), env.fetchResult = .error msg →
      ((¬ (isCacheUsable env.now env.cacheMeta = true ∧
           ∃ c, env.cacheData = some c ∧ 0 < c.length)) →
        (loadNASAPlanets env).2 =
          { planets := none, report := none, source := "built-in fallback",
            fetchedAt := none, fromCache := false, error := some msg }) ∧
      (∀ cached meta, env.cacheData = some cached → env.cacheMeta = some meta →
        0 < cached.length →
        isCacheUsable env.now env.cacheMeta = true →
        isCacheFresh env.now env.cacheMeta = false →
        (loadNASAPlanets env).2 =
          { planets := some cached, report := meta.report,
            source := "cache (stale, " ++ formatAge env.now meta.fetchedAt ++ " old)",
            fetchedAt := some meta.fetchedAt, fromCache := true, error := some msg } ∧
        ∃ pre post, (loadNASAPlanets env).2.source = pre ++ "stale" ++ post) := by
  intro env msg hferr
  constructor
  · intro hnone
    have hload : loadNASAPlanets env = fetchBranch env := by
      by_cases hf : isCacheFresh env.now env.cacheMeta = true
      · have hu := isCacheFresh_implies_usable env.now env.cacheMeta hf
        unfold loadNASAPlanets
        rw [hf]
        simp only [if_true]
        cases hcd : env.cacheData with
        | none => cases env.cacheMeta <;> rfl
        | some cached =>
          cases hcm : env.cacheMeta with
          | none => rfl
          | some meta =>
            have hlen : ¬ 0 < cached.length := fun hl => hnone ⟨hu, cached, hcd, hl⟩
            simp only [hlen, if_false]
      · exact load_not_fresh env (by revert hf; cases isCacheFresh env.now env.cacheMeta <;> simp)
    rw [hload, fetchBranch_error env msg hferr, fetchFail_builtin env msg hnone]
    rfl
  · intro cached meta hcd hcm hlen hu hnf
    have hload : loadNASAPlanets env = fetchBranch env := load_not_fresh env hnf
    have hres := fetchFail_stale env msg cached meta hcd hcm hlen hu
    rw [hload, fetchBranch_error env msg hferr, hres]
    exact ⟨rfl, "cache (", ", " ++ formatAge env.now meta.fetchedAt ++ " old)", rfl⟩

/-- C1 witness: a failing fetch with an empty environment falls back to the
built-in tag, and a failing fetch over a 3-day-old cache returns the stale
tag. -/
theorem load_fallback_C1_witness :
    (({ now := 1700000000000, cacheMeta := none, cacheData := none,
        fetchResult := .error "network down", jsonLen := fun _ => 0 } : Env).fetchResult =
      .error "network down") ∧
    (loadNASAPlanets
      { now := 1700000000000, cacheMeta := none, cacheData := none,
        fetchResult := .error "network down", jsonLen := fun _ => 0 }).2 =
      { planets := none, report := none, source := "built-in fallback",
        fetchedAt := none, fromCache := false, error := some "network down" } ∧
    (loadNASAPlanets
      { now := 1700000000000,
        cacheMeta := some { version := 2, fetchedAt := 1700000000000 - 3 * 86400000 },
        cacheData := some [{}],
        fetchResult := .error "network down", jsonLen := fun _ => 0 }).2 =
      { planets := some [{}],
        report := none,
        source := "cache (stale, " ++
          formatAge 1700000000000 (1700000000000 - 3 * 86400000) ++ " old)",
        fetchedAt := some (1700000000000 - 3 * 86400000), fromCache := true,
        error := some "network down" } := by
  refine ⟨rfl, ?_, ?_⟩
  · exact (load_fallback_C1 _ "network down" rfl).1 (by simp [isCacheUsable])
  · exact ((load_fallback_C1 _ "network down" rfl).2 [{}]
      { version := 2, fetchedAt := 1700000000000 - 3 * 86400000 } rfl rfl (by simp)
      (by simp [isCacheUsable, CACHE_VERSION, CACHE_STALE_AGE_MS])
      (by simp [isCacheFresh, CACHE_VERSION, CACHE_MAX_AGE_MS])).1

theorem cleanRecord_name (p : Planet) : (cleanRecord p).name = p.name := by
  simp [cleanRecord]

theorem cleanRecord_isSome (p : Planet) :
    (cleanRecord p).distance.isSome ∧ (cleanRecord p).radius.isSome ∧
    (cleanRecord p).mass.isSome ∧ (cleanRecord p).eqTemp.isSome ∧
    (cleanRecord p).period.isSome ∧ (cleanRecord p).semiMajorAxis.isSome := by
  simp [cleanRecord]

theorem vacLoop_count (ps : List Planet) (s : VacState) :
    (vacLoop s ps).cleaned.length + (vacLoop s ps).cleanedCount =
      s.cleaned.length + s.cleanedCount + ps.length := by
  induction ps generalizing s with
  | nil => simp [vacLoop]
  | cons p rest ih =>
    by_cases h : p.name ∈ s.seen
    · rw [vacLoop, if_pos h, ih]
      simp
      omega
    · rw [vacLoop, if_neg h, ih]
      simp
      omega

theorem vacLoop_badValues_mono (ps : List Planet) (s : VacState) :
    ∀ x ∈ s.badValues, x ∈ (vacLoop s ps).badValues := by
  induction ps generalizing s with
  | nil => intro x hx; simpa [vacLoop] using hx
  | cons p rest ih =>
    intro x hx
    by_cases h : p.name ∈ s.seen
    · rw [vacLoop, if_pos h]
      exact ih _ x hx
    · rw [vacLoop, if_neg h]
      exact ih _ x (by simp only [List.mem_append]; exact Or.inl hx)

theorem vacLoop_cleaned_src (ps : List Planet) (s : VacState) :
    ∀ q ∈ (vacLoop s ps).cleaned,
      q ∈ s.cleaned ∨
        ∃ p ∈ ps, q = cleanRecord p ∧
          ∀ x ∈ badEntries p, x ∈ (vacLoop s ps).badValues := by
  induction ps generalizing s with
  | nil => intro q hq; exact Or.inl (by simpa [vacLoop] using hq)
  | cons p rest ih =>
    intro q hq
    by_cases h : p.name ∈ s.seen
    · rw [vacLoop, if_pos h] at hq ⊢
      rcases ih _ q hq with hin | ⟨p2, hp2, hq2, hbad⟩
      · exact Or.inl hin
      · exact Or.inr ⟨p2, List.mem_cons_of_mem _ hp2, hq2, hbad⟩
    · rw [vacLoop, if_neg h] at hq ⊢
      rcases ih _ q hq with hin | ⟨p2, hp2, hq2, hbad⟩
      · rcases List.mem_append.mp hin with hold | hnew
        · exact Or.inl hold
        · refine Or.inr ⟨p, List.mem_cons_self _ _, List.mem_singleton.mp hnew, ?_⟩
          intro x hx
          exact vacLoop_badValues_mono rest _ x
            (by simp only [List.mem_append]; exact Or.inr hx)
      · exact Or.inr ⟨p2, List.mem_cons_of_mem _ hp2, hq2, hbad⟩

/-- C2: the validator's accounting satisfies
`totalOutput + cleaned ≤ totalInput`; every record of the cleaned output has
non-null radius, mass, eqTemp, period and semiMajorAxis; and missing values
are filled with exactly the specified defaults (radius 1.0; mass
`radius > 4 ? radius × 5 : radius^2.5` over the defaulted radius; eqTemp
`round(278·starLum^0.25/√semiMajorAxis)` when star luminosity and a positive
semi-major axis are available, else 300 K, flagged as estimated; period 0;
semiMajorAxis 0). -/
theorem validator_accounting_C2 (ps : List Planet) :
    ((validateAndClean ps).report.totalOutput + (validateAndClean ps).report.cleaned ≤
        (validateAndClean ps).report.totalInput) ∧
    (∀ q ∈ (validateAndClean ps).planets,
        q.radius.isSome ∧ q.mass.isSome ∧ q.eqTemp.isSome ∧ q.period.isSome ∧
          q.semiMajorAxis.isSome) ∧
    (∀ p : Planet,
        (p.radius = none → (cleanRecord p).radius = some 1) ∧
        (p.mass = none → (cleanRecord p).mass =
          some (if p.radius.getD 1 > 4 then p.radius.getD 1 * 5
                else p.radius.getD 1 ^ (2.5 : ℝ))) ∧
        (p.eqTemp = none →
          (cleanRecord p).eqTempEstimated = true ∧
          (cleanRecord p).eqTemp =
            some (match p.starLum, p.semiMajorAxis with
              | some lum, some a =>
                if a > 0 then jsRoundR (278 * lum ^ (0.25 : ℝ) / Real.sqrt a) else 300
              | _, _ => 300)) ∧
        (p.period = none → (cleanRecord p).period = some 0) ∧
        (p.semiMajorAxis = none → (cleanRecord p).semiMajorAxis = some 0)) := by
  refine ⟨?_, ?_, ?_⟩
  · have h := vacLoop_count ps {}
    simp only [validateAndClean]
    simp only [VacState.cleaned, List.length_nil, VacState.cleanedCount] at h ⊢
    omega
  · intro q hq
    have hsrc := vacLoop_cleaned_src ps {} q (by simpa [validateAndClean] using hq)
    rcases hsrc with hin | ⟨p, _, hq2, _⟩
    · simp at hin
    · subst hq2
      have h := cleanRecord_isSome p
      exact ⟨h.2.1, h.2.2.1, h.2.2.2.1, h.2.2.2.2.1, h.2.2.2.2.2⟩
  · intro p
    refine ⟨?_, ?_, ?_, ?_, ?_⟩
    · intro h; simp [cleanRecord, h]; norm_num
    · intro h
      cases hr : p.radius with
      | none => simp [cleanRecord, h, hr]; norm_num
      | some r => simp [cleanRecord, h, hr]
    · intro h
      cases hl : p.starLum with
      | none => cases ha : p.semiMajorAxis <;> simp [cleanRecord, h, hl, ha]
      | some lum => cases ha : p.semiMajorAxis <;> simp [cleanRecord, h, hl, ha]
    · intro h; simp [cleanRecord, h]
    · intro h; simp [cleanRecord, h]

/-- C2 witness: the general theorem applied to a concrete record whose
fields are all missing. -/
theorem validator_accounting_C2_witness :
    (cleanRecord { name := "w" } ∈
      (validateAndClean [{ name := "w" }]).planets) ∧
    ((cleanRecord { name := "w" }).radius.isSome ∧
      (cleanRecord { name := "w" }).mass.isSome ∧
      (cleanRecord { name := "w" }).eqTemp.isSome ∧
      (cleanRecord { name := "w" }).period.isSome ∧
      (cleanRecord { name := "w" }).semiMajorAxis.isSome) ∧
    (({ name := "w" } : Planet).radius = none →
      (cleanRecord { name := "w" }).radius = some 1) := by
  have hmem : cleanRecord { name := "w" } ∈
      (validateAndClean [{ name := "w" }]).planets := by
    simp [validateAndClean, vacLoop]
  exact ⟨hmem, (validator_accounting_C2 [{ name := "w" }]).2.1 _ hmem,
    ((validator_accounting_C2 [{ name := "w" }]).2.2 { name := "w" }).1⟩

theorem rpow_two_point_five_nonneg (x : ℝ) : 0 ≤ x ^ (2.5 : ℝ) := by
  rcases le_or_lt 0 x with hx | hx
  · exact Real.rpow_nonneg hx _
  · rw [Real.rpow_def_of_neg hx]
    have h25 : (2.5 : ℝ) * Real.pi = Real.pi / 2 + 2 * Real.pi := by ring
    rw [h25, Real.cos_add_two_pi, Real.cos_pi_div_two, mul_zero]

theorem massDefault_nonneg (rv : ℝ) : 0 ≤ if rv > 4 then rv * 5 else rv ^ (2.5 : ℝ) := by
  by_cases h : rv > 4
  · rw [if_pos h]; nlinarith
  · rw [if_neg h]; exact rpow_two_point_five_nonneg rv

theorem cleanRecord_neg_radius (p : Planet) (r : ℝ)
    (h : (cleanRecord p).radius = some r) (hneg : r < 0) : p.radius = some r := by
  cases hr : p.radius with
  | none =>
    simp [cleanRecord, hr] at h
    norm_num [← h] at hneg
  | some r2 =>
    simp [cleanRecord, hr] at h
    rw [h]

theorem cleanRecord_neg_mass (p : Planet) (m : ℝ)
    (h : (cleanRecord p).mass = some m) (hneg : m < 0) : p.mass = some m := by
  cases hm : p.mass with
  | none =>
    exfalso
    simp [cleanRecord, hm] at h
    exact absurd hneg (not_lt.mpr (h ▸ massDefault_nonneg _))
  | some m2 =>
    simp [cleanRecord, hm] at h
    rw [h]

theorem cleanRecord_neg_distance (p : Planet) (d : ℝ)
    (h : (cleanRecord p).distance = some d) (hneg : d < 0) : p.distance = some d := by
  cases hd : p.distance with
  | none =>
    simp [cleanRecord, hd] at h
    norm_num [← h] at hneg
  | some d2 =>
    simp [cleanRecord, hd] at h
    rw [h]

theorem badEntries_radius (p : Planet) (r : ℝ) (hr : p.radius = some r) (h : r ≤ 0) :
    ({ name := p.name, field := "radius", value := r } : BadEntry) ∈ badEntries p := by
  simp only [badEntries, hr, List.mem_append]
  exact Or.inl (Or.inl (Or.inl (by rw [if_pos (Or.inl h)]; exact List.mem_singleton.mpr rfl)))

theorem badEntries_mass (p : Planet) (m : ℝ) (hm : p.mass = some m) (h : m ≤ 0) :
    ({ name := p.name, field := "mass", value := m } : BadEntry) ∈ badEntries p := by
  simp only [badEntries, hm, List.mem_append]
  exact Or.inl (Or.inl (Or.inr (by rw [if_pos (Or.inl h)]; exact List.mem_singleton.mpr rfl)))

theorem badEntries_distance (p : Planet) (d : ℝ) (hd : p.distance = some d) (h : d ≤ 0) :
    ({ name := p.name, field := "distance", value := d } : BadEntry) ∈ badEntries p := by
  simp only [badEntries, hd, List.mem_append]
  exact Or.inl (Or.inr (by rw [if_pos h]; exact List.mem_singleton.mpr rfl))

/-- C3 counterexample: a single input record with radius −5, mass −3 and
distance −2 passes through `validateAndClean` unchanged — the cleaned set
contains a record whose radius, mass and distance are all negative, so
"radius, mass, distance ≥ 0 after cleaning" fails as stated. -/
theorem validator_nonneg_C3_counterexample :
    ((validateAndClean [badPlanetC3]).planets.map fun q => q.radius) = [some (-5)] ∧
    ((validateAndClean [badPlanetC3]).planets.map fun q => q.mass) = [some (-3)] ∧
    ((validateAndClean [badPlanetC3]).planets.map fun q => q.distance) = [some (-2)] ∧
    ((-5 : ℝ) < 0 ∧ (-3 : ℝ) < 0 ∧ (-2 : ℝ) < 0) := by
  refine ⟨?_, ?_, ?_, by norm_num⟩ <;>
    simp [validateAndClean, vacLoop, cleanRecord, badPlanetC3]

/-- C3 (amended): after cleaning, radius, mass and distance are never null —
missing values receive the model-based defaults — but negative input values
are retained unchanged (flag-only policy): any cleaned record carrying a
negative radius, mass or distance was recorded in `report.badValues` rather
than corrected, so nonnegativity itself does not hold. -/
theorem validator_nonneg_C3 (ps : List Planet) :
    ∀ q ∈ (validateAndClean ps).planets,
      q.radius.isSome ∧ q.mass.isSome ∧ q.distance.isSome ∧
      (∀ r, q.radius = some r → r < 0 →
        ({ name := q.name, field := "radius", value := r } : BadEntry) ∈
          (validateAndClean ps).report.badValues) ∧
      (∀ m, q.mass = some m → m < 0 →
        ({ name := q.name, field := "mass", value := m } : BadEntry) ∈
          (validateAndClean ps).report.badValues) ∧
      (∀ d, q.distance = some d → d < 0 →
        ({ name := q.name, field := "distance", value := d } : BadEntry) ∈
          (validateAndClean ps).report.badValues) := by
  intro q hq
  have hsrc := vacLoop_cleaned_src ps {} q (by simpa [validateAndClean] using hq)
  rcases hsrc with hin | ⟨p, _, hq2, hbad⟩
  · simp at hin
  · have hbad' : ∀ x ∈ badEntries p, x ∈ (validateAndClean ps).report.badValues := by
      intro x hx
      simpa [validateAndClean] using hbad x hx
    subst hq2
    have hsome := cleanRecord_isSome p
    refine ⟨hsome.2.1, hsome.2.2.1, hsome.1, ?_, ?_, ?_⟩
    · intro r hr hneg
      have hpr := cleanRecord_neg_radius p r hr hneg
      rw [cleanRecord_name]
      exact hbad' _ (badEntries_radius p r hpr hneg.le)
    · intro m hm hneg
      have hpm := cleanRecord_neg_mass p m hm hneg
      rw [cleanRecord_name]
      exact hbad' _ (badEntries_mass p m hpm hneg.le)
    · intro d hd hneg
      have hpd := cleanRecord_neg_distance p d hd hneg
      rw [cleanRecord_name]
      exact hbad' _ (badEntries_distance p d hpd hneg.le)

/-- C3 witness: the amended theorem applied to the concrete negative-valued
record — its flagged radius entry is indeed in `report.badValues`. -/
theorem validator_nonneg_C3_witness :
    (cleanRecord badPlanetC3 ∈ (validateAndClean [badPlanetC3]).planets) ∧
    ({ name := "Bad", field := "radius", value := -5 } : BadEntry) ∈
      (validateAndClean [badPlanetC3]).report.badValues := by
  have hmem : cleanRecord badPlanetC3 ∈ (validateAndClean [badPlanetC3]).planets := by
    simp [validateAndClean, vacLoop]
  have h := (validator_nonneg_C3 _ _ hmem).2.2.2.1 (-5)
    (by simp [cleanRecord, badPlanetC3]) (by norm_num)
  refine ⟨hmem, ?_⟩
  rw [cleanRecord_name] at h
  exact h

theorem vacLoop_cleaned_filter (n : String) (ps : List Planet) (s : VacState) :
    (vacLoop s ps).cleaned.filter (fun q => decide (q.name = n)) =
      s.cleaned.filter (fun q => decide (q.name = n)) ++
        (if n ∈ s.seen then []
         else ((ps.filter fun p => decide (p.name = n)).take 1).map cleanRecord) := by
  induction ps generalizing s with
  | nil => simp [vacLoop]
  | cons p rest ih =>
    by_cases h : p.name ∈ s.seen
    · rw [vacLoop, if_pos h, ih]
      by_cases hn : n ∈ s.seen
      · simp [hn]
      · have hpn : ¬ (p.name = n) := fun he => hn (he ▸ h)
        simp [hn, List.filter_cons, hpn]
    · rw [vacLoop, if_neg h, ih]
      by_cases hpn : p.name = n
      · subst hpn
        have hn : p.name ∉ s.seen := h
        simp [hn, List.filter_append, List.filter_cons, cleanRecord_name, List.mem_cons]
      · have hnp : ¬ n = p.name := fun he => hpn he.symm
        by_cases hn : n ∈ s.seen
        · simp [hn, List.filter_append, List.filter_cons, cleanRecord_name, hpn, hnp,
            List.mem_cons]
        · simp [hn, List.filter_append, List.filter_cons, cleanRecord_name, hpn, hnp,
            List.mem_cons]

theorem bumpName_find (l : List NameCount) (m n : String) :
    ((bumpName l m).find? fun e => decide (e.name = n)) =
      if m = n then
        some { name := n,
               count := (((l.find? fun e => decide (e.name = n)).map NameCount.count).getD 0) + 1 }
      else l.find? fun e => decide (e.name = n) := by
  induction l with
  | nil =>
    by_cases hmn : m = n
    · subst hmn; simp [bumpName, List.find?]
    · simp [bumpName, List.find?, hmn]
  | cons e rest ih =>
    by_cases hem : e.name = m
    · rw [bumpName, if_pos hem]
      by_cases hen : e.name = n
      · have hmn : m = n := hem ▸ hen
        rw [if_pos hmn, List.find?_cons_of_pos _ (by simp [hen]),
          List.find?_cons_of_pos _ (by simp [hen])]
        simp [hen]
      · have hmn : ¬ m = n := fun h => hen (hem.trans h)
        rw [if_neg hmn, List.find?_cons_of_neg _ (by simp [hen]),
          List.find?_cons_of_neg _ (by simp [hen])]
    · rw [bumpName, if_neg hem]
      by_cases hen : e.name = n
      · have hmn : ¬ m = n := fun h => hem (hen.trans h.symm)
        rw [if_neg hmn, List.find?_cons_of_pos _ (by simp [hen]),
          List.find?_cons_of_pos _ (by simp [hen])]
      · rw [List.find?_cons_of_neg _ (by simp [hen]), List.find?_cons_of_neg _ (by simp [hen])]
        exact ih

theorem foldl_bump_count (names : List String) (acc : List NameCount) (n : String) :
    (((names.foldl bumpName acc).find? fun e => decide (e.name = n)).map
        NameCount.count).getD 0 =
      ((acc.find? fun e => decide (e.name = n)).map NameCount.count).getD 0 +
        names.count n := by
  induction names generalizing acc with
  | nil => simp
  | cons m rest ih =>
    rw [List.foldl_cons, ih, bumpName_find]
    by_cases hmn : m = n
    · subst hmn
      simp [List.count_cons]
      omega
    · simp [List.count_cons, hmn]

/-- C4: deduplication keeps the first occurrence.  If the input contains
exactly two records named `n` (first `q1`), the cleaned output contains
exactly one record with that name — the default-filled first occurrence,
not a merge — and `report.duplicates` records `n` with count 2. -/
theorem dedup_C4 (ps : List Planet) (n : String) (q1 q2 : Planet)
    (hfilter : (ps.filter fun p => decide (p.name = n)) = [q1, q2]) :
    ((validateAndClean ps).planets.filter fun q => decide (q.name = n)) =
      [cleanRecord q1] ∧
    ((validateAndClean ps).planets.filter fun q => decide (q.name = n)).length = 1 ∧
    ({ name := n, count := 2 } : NameCount) ∈ (validateAndClean ps).report.duplicates := by
  have hplanets : (validateAndClean ps).planets = (vacLoop {} ps).cleaned := rfl
  have hfil : ((validateAndClean ps).planets.filter fun q => decide (q.name = n)) =
      [cleanRecord q1] := by
    rw [hplanets, vacLoop_cleaned_filter n ps {}]
    simp [hfilter]
  refine ⟨hfil, by rw [hfil]; rfl, ?_⟩
  have hcount : (ps.map Planet.name).count n = 2 := by
    have hbe : ∀ a : String, (a == n) = decide (a = n) := by
      intro a; by_cases h : a = n <;> simp [h]
    calc (ps.map Planet.name).count n
        = (ps.map Planet.name).countP (· == n) := rfl
      _ = ps.countP (fun p => p.name == n) := List.countP_map _ _ _
      _ = ps.countP (fun p => decide (p.name = n)) := by
          apply List.countP_congr
          intro p _
          rw [hbe p.name]
      _ = (ps.filter fun p => decide (p.name = n)).length := by
          rw [List.countP_eq_length_filter]
      _ = 2 := by rw [hfilter]; rfl
  have hfold : countNames ps = (ps.map Planet.name).foldl bumpName [] := by
    rw [List.foldl_map]
    rfl
  have hgetd : (((countNames ps).find? fun e => decide (e.name = n)).map
      NameCount.count).getD 0 = 2 := by
    rw [hfold, foldl_bump_count, hcount]
    simp
  have hfind : ((countNames ps).find? fun e => decide (e.name = n)) =
      some { name := n, count := 2 } := by
    cases hf : (countNames ps).find? fun e => decide (e.name = n) with
    | none => rw [hf] at hgetd; simp at hgetd
    | some e =>
      have hname : e.name = n := by
        have := List.find?_some hf
        simpa using this
      have hcnt : e.count = 2 := by rw [hf] at hgetd; simpa using hgetd
      cases e
      simp_all
  have hmem : ({ name := n, count := 2 } : NameCount) ∈ countNames ps :=
    List.mem_of_find?_eq_some hfind
  show ({ name := n, count := 2 } : NameCount) ∈ dupList ps
  rw [dupList]
  rw [List.mem_filter]
  exact ⟨hmem, by simp⟩

/-- C4 witness: two concrete records named `"dup"`; the cleaned catalog
keeps exactly the default-filled first and `report.duplicates` holds
`("dup", 2)`. -/
theorem dedup_C4_witness :
    (([dupPlanetA, dupPlanetB].filter fun p => decide (p.name = "dup")) =
      [dupPlanetA, dupPlanetB]) ∧
    ((validateAndClean [dupPlanetA, dupPlanetB]).planets.filter
        fun q => decide (q.name = "dup")) = [cleanRecord dupPlanetA] ∧
    ({ name := "dup", count := 2 } : NameCount) ∈
      (validateAndClean [dupPlanetA, dupPlanetB]).report.duplicates := by
  have hfilter : (([dupPlanetA, dupPlanetB] : List Planet).filter
      fun p => decide (p.name = "dup")) = [dupPlanetA, dupPlanetB] := by
    simp [dupPlanetA, dupPlanetB]
  have h := dedup_C4 [dupPlanetA, dupPlanetB] "dup" dupPlanetA dupPlanetB hfilter
  exact ⟨hfilter, h.1, h.2.2⟩

theorem esiComponent_bounds (v e w x : ℝ) (he : 0 < e) (hw : 0 ≤ w)
    (hx : esiComponent v e w = some x) : 0 ≤ x ∧ x ≤ 1 := by
  unfold esiComponent at hx
  by_cases hv : v ≤ 0
  · rw [if_pos hv] at hx; exact absurd hx (by simp)
  · rw [if_neg hv] at hx
    have hv0 : 0 < v := lt_of_not_le hv
    have hsum : 0 < v + e := by linarith
    have habs : |v - e| ≤ v + e := by
      calc |v - e| ≤ |v| + |e| := abs_sub v e
        _ = v + e := by rw [abs_of_pos hv0, abs_of_pos he]
    have hbase0 : 0 ≤ 1 - |v - e| / (v + e) := by
      have : |v - e| / (v + e) ≤ 1 := (div_le_one hsum).mpr habs
      linarith
    have hbase1 : 1 - |v - e| / (v + e) ≤ 1 := by
      have : 0 ≤ |v - e| / (v + e) := div_nonneg (abs_nonneg _) hsum.le
      linarith
    have hx2 : x = (1 - |v - e| / (v + e)) ^ w := by
      exact (Option.some.injEq _ _ ▸ hx).symm
    rw [hx2]
    exact ⟨Real.rpow_nonneg hbase0 w, Real.rpow_le_one hbase0 hbase1 hw⟩

theorem esiComponent_isSome (v e w : ℝ) (hv : 0 < v) : (esiComponent v e w).isSome := by
  unfold esiComponent
  rw [if_neg (not_le.mpr hv)]
  rfl

theorem roundMilli_bounds (x : ℝ) (h0 : 0 ≤ x) (h1 : x ≤ 1) :
    0 ≤ roundMilli x ∧ roundMilli x ≤ 1 := by
  unfold roundMilli jsRound
  constructor
  · apply div_nonneg _ (by norm_num)
    have : (0 : ℤ) ≤ ⌊x * 1000 + 1 / 2⌋ := Int.floor_nonneg.mpr (by nlinarith)
    exact_mod_cast this
  · rw [div_le_one (by norm_num)]
    have h2 : ⌊x * 1000 + 1 / 2⌋ ≤ ⌊(1000.5 : ℝ)⌋ := Int.floor_mono (by nlinarith)
    have h3 : ⌊(1000.5 : ℝ)⌋ = 1000 := by norm_num
    have : ⌊x * 1000 + 1 / 2⌋ ≤ (1000 : ℤ) := h3 ▸ h2
    exact_mod_cast this

theorem calculateESI_eq (p : Planet) (r m t : ℝ)
    (hr : p.radius = some r) (hr0 : r ≠ 0)
    (hm : p.mass = some m) (hm0 : m ≠ 0)
    (ht : p.eqTemp = some t) (ht0 : t ≠ 0) :
    calculateESI p =
      (let density := m / r ^ 3 * EARTH.density
       let escapeVelocity := Real.sqrt (m / r) * EARTH.escapeVelocity
       let components : ESIComponents :=
         { radius := esiComponent r EARTH.radius ESI_WEIGHTS.radius
           density := esiComponent density EARTH.density ESI_WEIGHTS.density
           escapeVelocity := esiComponent escapeVelocity EARTH.escapeVelocity
             ESI_WEIGHTS.escapeVelocity
           surfaceTemp := esiComponent t EARTH.eqTemp ESI_WEIGHTS.surfaceTemp }
       let interior := match components.radius, components.density with
         | some cr, some cd => some ((cr * cd) ^ (0.5 : ℝ))
         | _, _ => none
       let surface := match components.escapeVelocity, components.surfaceTemp with
         | some ce, some ct => some ((ce * ct) ^ (0.5 : ℝ))
         | _, _ => none
       let validComponents := [components.radius, components.density,
         components.escapeVelocity, components.surfaceTemp].filterMap id
       let global := if 0 < validComponents.length then
           (validComponents.foldl (· * ·) 1) ^ (1 / (validComponents.length : ℝ))
         else (0 : ℝ)
       { global := roundMilli global
         interior := interior.map roundMilli
         surface := surface.map roundMilli
         components := components
         confidence := if p.mass.isSome ∧ p.eqTemp.isSome ∧ ¬p.eqTempEstimated then "high"
           else "moderate"
         note := if p.mass.isNone then some "Mass estimated from radius using M-R relation."
           else none }) := by
  unfold calculateESI
  rw [if_neg (by simp [jsTruthyNum, hr, ht, hr0, ht0])]
  have hmT : jsTruthyNum (some m) = true := by simp [jsTruthyNum, hm0]
  simp only [hr, hm, ht, hmT, jsNum, Option.getD_some, eq_self_iff_true, if_true]

theorem esiComponent_self (v w : ℝ) (hv : 0 < v) : esiComponent v v w = some 1 := by
  unfold esiComponent
  rw [if_neg (not_le.mpr hv)]
  simp [sub_self, abs_zero, Real.one_rpow]

theorem esi_earthTwin_global : (calculateESI earthTwin).global = 1 := by
  have hT := calculateESI_eq earthTwin 1 1 255 rfl (by norm_num) rfl (by norm_num) rfl
    (by norm_num)
  have hv1 : (1 : ℝ) / 1 ^ 3 * EARTH.density = EARTH.density := by norm_num
  have hv2 : Real.sqrt ((1 : ℝ) / 1) * EARTH.escapeVelocity = EARTH.escapeVelocity := by
    norm_num [Real.sqrt_one]
  have h1 : esiComponent 1 EARTH.radius ESI_WEIGHTS.radius = some 1 := by
    have : EARTH.radius = 1 := by norm_num [EARTH]
    rw [this]
    exact esiComponent_self 1 _ (by norm_num)
  have h2 : esiComponent (1 / 1 ^ 3 * EARTH.density) EARTH.density ESI_WEIGHTS.density =
      some 1 := by
    rw [hv1]
    exact esiComponent_self _ _ (by norm_num [EARTH])
  have h3 : esiComponent (Real.sqrt (1 / 1) * EARTH.escapeVelocity) EARTH.escapeVelocity
      ESI_WEIGHTS.escapeVelocity = some 1 := by
    rw [hv2]
    exact esiComponent_self _ _ (by norm_num [EARTH])
  have h4 : esiComponent 255 EARTH.eqTemp ESI_WEIGHTS.surfaceTemp = some 1 := by
    have : EARTH.eqTemp = 255 := by norm_num [EARTH]
    rw [this]
    exact esiComponent_self 255 _ (by norm_num)
  rw [hT]
  simp only [h1, h2, h3, h4, List.filterMap, Option.bind]
  norm_num [List.foldl, Real.one_rpow, roundMilli, jsRound]

/-- C6: for every planet whose radius, mass and equilibrium temperature are
present and strictly positive, all four computed ESI components exist and
lie in [0, 1], as do the global, interior and surface scores; and the exact
Earth twin (radius 1, mass 1, eqTemp 255) scores `global ≥ 0.99`. -/
theorem esi_bounds_C6 (p : Planet) (r m t : ℝ)
    (hr : p.radius = some r) (hr0 : 0 < r)
    (hm : p.mass = some m) (hm0 : 0 < m)
    (ht : p.eqTemp = some t) (ht0 : 0 < t) :
    ((calculateESI p).components.radius.isSome ∧
     (calculateESI p).components.density.isSome ∧
     (calculateESI p).components.escapeVelocity.isSome ∧
     (calculateESI p).components.surfaceTemp.isSome) ∧
    (∀ x, (calculateESI p).components.radius = some x → 0 ≤ x ∧ x ≤ 1) ∧
    (∀ x, (calculateESI p).components.density = some x → 0 ≤ x ∧ x ≤ 1) ∧
    (∀ x, (calculateESI p).components.escapeVelocity = some x → 0 ≤ x ∧ x ≤ 1) ∧
    (∀ x, (calculateESI p).components.surfaceTemp = some x → 0 ≤ x ∧ x ≤ 1) ∧
    (0 ≤ (calculateESI p).global ∧ (calculateESI p).global ≤ 1) ∧
    (∀ x, (calculateESI p).interior = some x → 0 ≤ x ∧ x ≤ 1) ∧
    (∀ x, (calculateESI p).surface = some x → 0 ≤ x ∧ x ≤ 1) ∧
    (0.99 ≤ (calculateESI earthTwin).global) := by
  have hEq := calculateESI_eq p r m t hr (ne_of_gt hr0) hm (ne_of_gt hm0) ht (ne_of_gt ht0)
  have hdpos : 0 < m / r ^ 3 * EARTH.density :=
    mul_pos (div_pos hm0 (pow_pos hr0 3)) (by norm_num [EARTH])
  have hepos : 0 < Real.sqrt (m / r) * EARTH.escapeVelocity :=
    mul_pos (Real.sqrt_pos.mpr (div_pos hm0 hr0)) (by norm_num [EARTH])
  obtain ⟨a, ha⟩ := Option.isSome_iff_exists.mp
    (esiComponent_isSome r EARTH.radius ESI_WEIGHTS.radius hr0)
  obtain ⟨b, hb⟩ := Option.isSome_iff_exists.mp
    (esiComponent_isSome _ EARTH.density ESI_WEIGHTS.density hdpos)
  obtain ⟨c, hc⟩ := Option.isSome_iff_exists.mp
    (esiComponent_isSome _ EARTH.escapeVelocity ESI_WEIGHTS.escapeVelocity hepos)
  obtain ⟨d, hd⟩ := Option.isSome_iff_exists.mp
    (esiComponent_isSome t EARTH.eqTemp ESI_WEIGHTS.surfaceTemp ht0)
  have hA := esiComponent_bounds r EARTH.radius ESI_WEIGHTS.radius a
    (by norm_num [EARTH]) (by norm_num [ESI_WEIGHTS]) ha
  have hB := esiComponent_bounds _ EARTH.density ESI_WEIGHTS.density b
    (by norm_num [EARTH]) (by norm_num [ESI_WEIGHTS]) hb
  have hC := esiComponent_bounds _ EARTH.escapeVelocity ESI_WEIGHTS.escapeVelocity c
    (by norm_num [EARTH]) (by norm_num [ESI_WEIGHTS]) hc
  have hD := esiComponent_bounds t EARTH.eqTemp ESI_WEIGHTS.surfaceTemp d
    (by norm_num [EARTH]) (by norm_num [ESI_WEIGHTS]) hd
  rw [hEq]
  simp only [ha, hb, hc, hd, List.filterMap, Option.bind, Option.isSome_some,
    Option.some.injEq, List.foldl, List.length_cons, List.length_nil]
  have hprod0 : 0 ≤ 1 * a * b * c * d :=
    mul_nonneg (mul_nonneg (mul_nonneg (by linarith [hA.1]) hB.1) hC.1) hD.1
  have hprod1 : 1 * a * b * c * d ≤ 1 := by
    have h1 : 1 * a ≤ 1 := by linarith [hA.2]
    have h2 : 1 * a * b ≤ 1 :=
      mul_le_one h1 hB.1 hB.2 |>.trans (le_refl 1)
    have h3 : 1 * a * b * c ≤ 1 :=
      mul_le_one h2 hC.1 hC.2 |>.trans (le_refl 1)
    exact mul_le_one h3 hD.1 hD.2
  refine ⟨⟨trivial, trivial, trivial, trivial⟩, ?_, ?_, ?_, ?_, ?_, ?_, ?_, ?_⟩
  · intro x hx; exact hx ▸ hA
  · intro x hx; exact hx ▸ hB
  · intro x hx; exact hx ▸ hC
  · intro x hx; exact hx ▸ hD
  · have hglob := roundMilli_bounds ((1 * a * b * c * d) ^ (1 / ((4 : ℕ) : ℝ)))
      (Real.rpow_nonneg hprod0 _) (Real.rpow_le_one hprod0 hprod1 (by norm_num))
    simpa using hglob
  · intro x hx
    have hx2 : x = roundMilli ((a * b) ^ (0.5 : ℝ)) := by
      simp at hx
      exact hx.symm
    rw [hx2]
    have hab0 : 0 ≤ a * b := mul_nonneg hA.1 hB.1
    have hab1 : a * b ≤ 1 := mul_le_one hA.2 hB.1 hB.2
    exact roundMilli_bounds _ (Real.rpow_nonneg hab0 _)
      (Real.rpow_le_one hab0 hab1 (by norm_num))
  · intro x hx
    have hx2 : x = roundMilli ((c * d) ^ (0.5 : ℝ)) := by
      simp at hx
      exact hx.symm
    rw [hx2]
    have hcd0 : 0 ≤ c * d := mul_nonneg hC.1 hD.1
    have hcd1 : c * d ≤ 1 := mul_le_one hC.2 hD.1 hD.2
    exact roundMilli_bounds _ (Real.rpow_nonneg hcd0 _)
      (Real.rpow_le_one hcd0 hcd1 (by norm_num))
  · rw [esi_earthTwin_global]
    norm_num

/-- C6 witness: the bounds theorem applied to the Earth twin itself. -/
theorem esi_bounds_C6_witness :
    earthTwin.radius = some 1 ∧ (0 : ℝ) < 1 ∧
    (0 ≤ (calculateESI earthTwin).global ∧ (calculateESI earthTwin).global ≤ 1) ∧
    0.99 ≤ (calculateESI earthTwin).global := by
  have h := esi_bounds_C6 earthTwin 1 1 255 rfl (by norm_num) rfl (by norm_num) rfl
    (by norm_num)
  exact ⟨rfl, by norm_num, h.2.2.2.2.2.1, h.2.2.2.2.2.2.2.2⟩

/-- C8: `enrichPlanet` is idempotent — a second application recomputes every
attached field (hzStatus, esi, coords, constellation, observability,
magnitudeGuidance, discoveryMethodInfo) from the unchanged base fields, so
the result is identical and no state accumulates. -/
theorem enrich_idempotent_C8 (p : Planet) :
    enrichPlanet (enrichPlanet p) = enrichPlanet p := by
  simp only [enrichPlanet]
  by_cases h1 : p.ra.isSome && p.dec.isSome <;>
    by_cases h2 : p.vMag.isSome <;>
      by_cases h3 : jsTruthyStr p.discoveryMethod <;>
        simp [h1, h2, h3] <;> (repeat' apply And.intro) <;> rfl

theorem sEff_rgh_le_rv (t : ℝ) (h1 : -3180 ≤ t) (h2 : t ≤ 1420) :
    sEff HZ_runawayGH t ≤ sEff HZ_recentVenus t := by
  simp only [sEff, HZ_runawayGH, HZ_recentVenus]
  nlinarith [mul_nonneg (by linarith : (0:ℝ) ≤ t + 3180) (by linarith : (0:ℝ) ≤ 1420 - t),
    mul_nonneg (sq_nonneg t) (by linarith : (0:ℝ) ≤ 1420 - t),
    sq_nonneg (t * t), sq_nonneg t]

theorem sEff_maxGH_le_rgh (t : ℝ) (h1 : -3180 ≤ t) (h2 : t ≤ 1420) :
    sEff HZ_maxGreenhouse t ≤ sEff HZ_runawayGH t := by
  simp only [sEff, HZ_maxGreenhouse, HZ_runawayGH]
  nlinarith [mul_nonneg (by linarith : (0:ℝ) ≤ t + 3180) (by linarith : (0:ℝ) ≤ 1420 - t),
    mul_nonneg (sq_nonneg t) (by linarith : (0:ℝ) ≤ 1420 - t),
    mul_nonneg (mul_nonneg (by linarith : (0:ℝ) ≤ t + 3180)
      (by linarith : (0:ℝ) ≤ 1420 - t)) (sq_nonneg t),
    sq_nonneg t]

theorem sEff_em_pos (t : ℝ) (h1 : -3180 ≤ t) (h2 : t ≤ 1420) :
    0 < sEff HZ_earlyMars t := by
  simp only [sEff, HZ_earlyMars]
  nlinarith [mul_nonneg (by linarith : (0:ℝ) ≤ t + 3180) (by linarith : (0:ℝ) ≤ 1420 - t),
    mul_nonneg (sq_nonneg t) (by linarith : (0:ℝ) ≤ 1420 - t),
    mul_nonneg (mul_nonneg (by linarith : (0:ℝ) ≤ t + 3180)
      (by linarith : (0:ℝ) ≤ 1420 - t)) (sq_nonneg t),
    sq_nonneg t]

theorem sEff_em_le_maxGH (t : ℝ) (h1 : -3180 ≤ t) (h2 : t ≤ 1420) :
    sEff HZ_earlyMars t ≤ sEff HZ_maxGreenhouse t := by
  simp only [sEff, HZ_earlyMars, HZ_maxGreenhouse]
  rcases le_or_lt 0 t with ht | ht
  · nlinarith [mul_nonneg ht (by linarith : (0:ℝ) ≤ 1420 - t),
      mul_nonneg (sq_nonneg t) (by linarith : (0:ℝ) ≤ 1420 - t),
      mul_nonneg (mul_nonneg ht (sq_nonneg t)) (by linarith : (0:ℝ) ≤ 1420 - t),
      sq_nonneg t]
  · rcases le_or_lt (-1590) t with ht2 | ht2
    · nlinarith [mul_nonneg (by linarith : (0:ℝ) ≤ -t) (sq_nonneg t),
        mul_nonneg (mul_nonneg (by linarith : (0:ℝ) ≤ t + 1590)
          (by linarith : (0:ℝ) ≤ -t)) (sq_nonneg t),
        sq_nonneg t]
    · nlinarith [mul_nonneg (by linarith : (0:ℝ) ≤ -t - 1590) (sq_nonneg t),
        mul_nonneg (mul_nonneg (by linarith : (0:ℝ) ≤ t + 3180)
          (by linarith : (0:ℝ) ≤ 3180 - t)) (sq_nonneg t),
        sq_nonneg t]

theorem distAU_mono (lum s1 s2 : ℝ) (hl : 0 < lum) (h2 : 0 < s2) (h12 : s2 ≤ s1) :
    distAU lum s1 ≤ distAU lum s2 := by
  unfold distAU
  exact Real.sqrt_le_sqrt (div_le_div_of_nonneg_left hl.le h2 h12)

/-- C7: whenever `calculateHabitableZone` returns boundaries, the optimistic
habitable zone fully contains the conservative one:
`optimisticInner ≤ conservativeInner ≤ conservativeOuter ≤ optimisticOuter`.
The ordering follows from the tabulated quartic flux coefficients evaluated
over the clamped temperature range 2600–7200 K. -/
theorem hz_containment_C7 (starTeff starLum : Option ℝ) (b : HZBoundaries)
    (h : calculateHabitableZone starTeff starLum = some b) :
    b.optimisticInner ≤ b.conservativeInner ∧
    b.conservativeInner ≤ b.conservativeOuter ∧
    b.conservativeOuter ≤ b.optimisticOuter := by
  cases starTeff with
  | none => simp [calculateHabitableZone] at h
  | some teff =>
    cases starLum with
    | none => simp [calculateHabitableZone] at h
    | some lum =>
      unfold calculateHabitableZone at h
      by_cases hc : teff = 0 ∨ lum ≤ 0
      · simp only [hc, if_true] at h
        exact absurd h (by simp)
      · simp only [hc, if_false] at h
        have hlum : 0 < lum := lt_of_not_le fun hle => hc (Or.inr hle)
        obtain rfl := Option.some.inj h
        have ht1 : -3180 ≤ max 2600 (min 7200 teff) - 5780 := by
          have : (2600 : ℝ) ≤ max 2600 (min 7200 teff) := le_max_left _ _
          linarith
        have ht2 : max 2600 (min 7200 teff) - 5780 ≤ 1420 := by
          have : max (2600 : ℝ) (min 7200 teff) ≤ 7200 :=
            max_le (by norm_num) (min_le_left _ _)
          linarith
        set t := max (2600:ℝ) (min 7200 teff) - 5780 with hts
        have hem := sEff_em_pos t ht1 ht2
        have h1 := sEff_em_le_maxGH t ht1 ht2
        have h2 := sEff_maxGH_le_rgh t ht1 ht2
        have h3 := sEff_rgh_le_rv t ht1 ht2
        refine ⟨?_, ?_, ?_⟩
        · exact distAU_mono lum _ _ hlum (by linarith) (by linarith)
        · exact distAU_mono lum _ _ hlum (by linarith) (by linarith)
        · exact distAU_mono lum _ _ hlum hem h1

/-- C7 witness: the Sun-like star (Teff 5780 K, luminosity 1 L☉); the
computed boundaries satisfy the containment chain. -/
theorem hz_containment_C7_witness :
    (calculateHabitableZone (some 5780) (some 1) = some
      { conservativeInner := distAU 1 (sEff HZ_runawayGH (max 2600 (min 7200 5780) - 5780))
        conservativeOuter := distAU 1 (sEff HZ_maxGreenhouse (max 2600 (min 7200 5780) - 5780))
        optimisticInner := distAU 1 (sEff HZ_recentVenus (max 2600 (min 7200 5780) - 5780))
        optimisticOuter := distAU 1 (sEff HZ_earlyMars (max 2600 (min 7200 5780) - 5780))
        modelValid := true
        modelNoted := false
        reference := "Kopparapu et al. (2013, 2014)" }) ∧
    distAU 1 (sEff HZ_recentVenus (max 2600 (min 7200 5780) - 5780)) ≤
      distAU 1 (sEff HZ_runawayGH (max 2600 (min 7200 5780) - 5780)) ∧
    distAU 1 (sEff HZ_runawayGH (max 2600 (min 7200 5780) - 5780)) ≤
      distAU 1 (sEff HZ_maxGreenhouse (max 2600 (min 7200 5780) - 5780)) ∧
    distAU 1 (sEff HZ_maxGreenhouse (max 2600 (min 7200 5780) - 5780)) ≤
      distAU 1 (sEff HZ_earlyMars (max 2600 (min 7200 5780) - 5780)) := by
  have hEq : calculateHabitableZone (some 5780) (some 1) = some
      { conservativeInner := distAU 1 (sEff HZ_runawayGH (max 2600 (min 7200 5780) - 5780))
        conservativeOuter := distAU 1 (sEff HZ_maxGreenhouse (max 2600 (min 7200 5780) - 5780))
        optimisticInner := distAU 1 (sEff HZ_recentVenus (max 2600 (min 7200 5780) - 5780))
        optimisticOuter := distAU 1 (sEff HZ_earlyMars (max 2600 (min 7200 5780) - 5780))
        modelValid := true
        modelNoted := false
        reference := "Kopparapu et al. (2013, 2014)" } := by
    unfold calculateHabitableZone
    have hc : ¬((5780 : ℝ) = 0 ∨ (1 : ℝ) ≤ 0) := by norm_num
    simp only [hc, if_false, Option.some.injEq, HZBoundaries.mk.injEq]
    norm_num
  have h := hz_containment_C7 (some 5780) (some 1) _ hEq
  exact ⟨hEq, h.1, h.2.1, h.2.2⟩

theorem foldl_filter_subset (stages : List (Planet → Bool)) (acc : List Planet) :
    stages.foldl (fun acc pr => acc.filter pr) acc ⊆ acc := by
  induction stages generalizing acc with
  | nil => exact fun a ha => ha
  | cons pr rest ih =>
    intro a ha
    exact (List.filter_sublist acc).subset (ih (acc.filter pr) ha)

theorem mem_insertSorted (le : Planet → Planet → Bool) (x a : Planet) (l : List Planet) :
    a ∈ insertSorted le x l ↔ a = x ∨ a ∈ l := by
  induction l with
  | nil => simp [insertSorted]
  | cons y ys ih =>
    by_cases h : le x y
    · rw [insertSorted, if_pos h]
      simp [List.mem_cons]
    · rw [insertSorted, if_neg h]
      simp only [List.mem_cons, ih]
      tauto

theorem mem_jsSort (le : Planet → Planet → Bool) (a : Planet) (l : List Planet) :
    a ∈ jsSort le l ↔ a ∈ l := by
  induction l with
  | nil => simp [jsSort]
  | cons x xs ih =>
    rw [jsSort, mem_insertSorted, ih]
    simp [List.mem_cons]

theorem insertSorted_pairwise (le : Planet → Planet → Bool) (P : Planet → Prop)
    (x : Planet) (l : List Planet)
    (hl : l.Pairwise (fun a b => le a b = true))
    (hPx : P x) (hPl : ∀ a ∈ l, P a)
    (htotal : ∀ a b, P a → P b → le a b = true ∨ le b a = true)
    (htrans : ∀ a b c, P a → P b → P c → le a b = true → le b c = true → le a c = true) :
    (insertSorted le x l).Pairwise (fun a b => le a b = true) := by
  induction l with
  | nil => simp [insertSorted]
  | cons y ys ih =>
    rcases List.pairwise_cons.mp hl with ⟨hy, hys⟩
    by_cases h : le x y
    · rw [insertSorted, if_pos h]
      refine List.pairwise_cons.mpr ⟨?_, hl⟩
      intro b hb
      rcases List.mem_cons.mp hb with rfl | hb2
      · exact h
      · exact htrans x y b hPx (hPl y (List.mem_cons_self _ _))
          (hPl b (List.mem_cons_of_mem _ hb2)) h (hy b hb2)
    · rw [insertSorted, if_neg h]
      refine List.pairwise_cons.mpr ⟨?_, ?_⟩
      · intro b hb
        rcases (mem_insertSorted le x b ys).mp hb with rfl | hb2
        · rcases htotal b y hPx (hPl y (List.mem_cons_self _ _)) with hxy | hyx
          · exact absurd hxy h
          · exact hyx
        · exact hy b hb2
      · exact ih hys (fun a ha => hPl a (List.mem_cons_of_mem _ ha))

theorem jsSort_pairwise (le : Planet → Planet → Bool) (P : Planet → Prop)
    (l : List Planet) (hPl : ∀ a ∈ l, P a)
    (htotal : ∀ a b, P a → P b → le a b = true ∨ le b a = true)
    (htrans : ∀ a b c, P a → P b → P c → le a b = true → le b c = true → le a c = true) :
    (jsSort le l).Pairwise (fun a b => le a b = true) := by
  induction l with
  | nil => simp [jsSort]
  | cons x xs ih =>
    rw [jsSort]
    refine insertSorted_pairwise le P x (jsSort le xs)
      (ih fun a ha => hPl a (List.mem_cons_of_mem _ ha))
      (hPl x (List.mem_cons_self _ _))
      (fun a ha => hPl a (List.mem_cons_of_mem _ ((mem_jsSort le a xs).mp ha)))
      htotal htrans

theorem toKey_not_str (d : String) (v : JSVal) (hv : ∀ s, v ≠ JSVal.str s) :
    ∀ s, toKey d v ≠ JSKey.str s := by
  cases v with
  | num x => simp [toKey]
  | str s => exact absurd rfl (hv s)
  | null =>
    intro s
    simp only [toKey]
    split <;> simp

theorem jsKeyLt_iff (k1 k2 : JSKey) (h1 : ∀ s, k1 ≠ JSKey.str s)
    (h2 : ∀ s, k2 ≠ JSKey.str s) :
    jsKeyLt k1 k2 = true ↔ keyER k1 < keyER k2 := by
  cases k1 with
  | str s => exact absurd rfl (h1 s)
  | fin x =>
    cases k2 with
    | str s => exact absurd rfl (h2 s)
    | fin y => simp [jsKeyLt, keyER, EReal.coe_lt_coe_iff]
    | pinf => simp [jsKeyLt, keyER, EReal.coe_lt_top]
    | ninf => simp [jsKeyLt, keyER]
  | pinf =>
    cases k2 with
    | str s => exact absurd rfl (h2 s)
    | fin y => simp [jsKeyLt, keyER]
    | pinf => simp [jsKeyLt, keyER]
    | ninf => simp [jsKeyLt, keyER]
  | ninf =>
    cases k2 with
    | str s => exact absurd rfl (h2 s)
    | fin y => simp [jsKeyLt, keyER, EReal.bot_lt_coe]
    | pinf => simp [jsKeyLt, keyER, bot_lt_top]
    | ninf => simp [jsKeyLt, keyER]

theorem sortCmp_le_iff (sortBy sortDir : String) (a b : Planet)
    (ha : ∀ s, sortKeyOf a sortBy ≠ JSVal.str s)
    (hb : ∀ s, sortKeyOf b sortBy ≠ JSVal.str s) :
    (sortCmp sortBy sortDir a b ≤ 0) ↔
      (if sortDir = "asc"
       then keyER (toKey sortDir (sortKeyOf a sortBy)) ≤
         keyER (toKey sortDir (sortKeyOf b sortBy))
       else keyER (toKey sortDir (sortKeyOf b sortBy)) ≤
         keyER (toKey sortDir (sortKeyOf a sortBy))) := by
  have hka := toKey_not_str sortDir _ ha
  have hkb := toKey_not_str sortDir _ hb
  have h1 := jsKeyLt_iff _ _ hka hkb
  have h2 := jsKeyLt_iff _ _ hkb hka
  unfold sortCmp
  by_cases hd : sortDir = "asc"
  · subst hd
    simp only [eq_self_iff_true, if_true]
    by_cases hA : jsKeyLt (toKey "asc" (sortKeyOf a sortBy))
        (toKey "asc" (sortKeyOf b sortBy)) = true
    · rw [if_pos hA]
      exact iff_of_true (by norm_num) (le_of_lt (h1.mp hA))
    · rw [if_neg hA]
      by_cases hB : jsKeyLt (toKey "asc" (sortKeyOf b sortBy))
          (toKey "asc" (sortKeyOf a sortBy)) = true
      · rw [if_pos hB]
        exact iff_of_false (by norm_num) (not_le.mpr (h2.mp hB))
      · rw [if_neg hB]
        exact iff_of_true le_rfl (le_of_not_lt fun hlt => hB (h2.mpr hlt))
  · simp only [if_neg hd]
    by_cases hA : jsKeyLt (toKey sortDir (sortKeyOf a sortBy))
        (toKey sortDir (sortKeyOf b sortBy)) = true
    · rw [if_pos hA]
      exact iff_of_false (by norm_num) (not_le.mpr (h1.mp hA))
    · rw [if_neg hA]
      by_cases hB : jsKeyLt (toKey sortDir (sortKeyOf b sortBy))
          (toKey sortDir (sortKeyOf a sortBy)) = true
      · rw [if_pos hB]
        exact iff_of_true (by norm_num) (le_of_lt (h2.mp hB))
      · rw [if_neg hB]
        exact iff_of_true le_rfl (le_of_not_lt fun hlt => hA (h1.mpr hlt))

theorem jsSort_cmp_null_last (sortBy sortDir : String) (l : List Planet)
    (hnum : ∀ p ∈ l, ∀ s, sortKeyOf p sortBy ≠ JSVal.str s) :
    (jsSort (fun a b => decide (sortCmp sortBy sortDir a b ≤ 0)) l).Pairwise
      (fun a b => sortKeyOf a sortBy = JSVal.null → sortKeyOf b sortBy = JSVal.null) := by
  have htotal : ∀ a b : Planet,
      (∀ s, sortKeyOf a sortBy ≠ JSVal.str s) → (∀ s, sortKeyOf b sortBy ≠ JSVal.str s) →
      decide (sortCmp sortBy sortDir a b ≤ 0) = true ∨
        decide (sortCmp sortBy sortDir b a ≤ 0) = true := by
    intro a b hPa hPb
    rw [decide_eq_true_eq, decide_eq_true_eq, sortCmp_le_iff _ _ _ _ hPa hPb,
      sortCmp_le_iff _ _ _ _ hPb hPa]
    by_cases hd : sortDir = "asc"
    · rw [if_pos hd, if_pos hd]; exact le_total _ _
    · rw [if_neg hd, if_neg hd]; exact le_total _ _
  have htrans : ∀ a b c : Planet,
      (∀ s, sortKeyOf a sortBy ≠ JSVal.str s) → (∀ s, sortKeyOf b sortBy ≠ JSVal.str s) →
      (∀ s, sortKeyOf c sortBy ≠ JSVal.str s) →
      decide (sortCmp sortBy sortDir a b ≤ 0) = true →
      decide (sortCmp sortBy sortDir b c ≤ 0) = true →
      decide (sortCmp sortBy sortDir a c ≤ 0) = true := by
    intro a b c hPa hPb hPc hab hbc
    rw [decide_eq_true_eq, sortCmp_le_iff _ _ _ _ hPa hPb] at hab
    rw [decide_eq_true_eq, sortCmp_le_iff _ _ _ _ hPb hPc] at hbc
    rw [decide_eq_true_eq, sortCmp_le_iff _ _ _ _ hPa hPc]
    by_cases hd : sortDir = "asc"
    · rw [if_pos hd] at hab hbc ⊢; exact le_trans hab hbc
    · rw [if_neg hd] at hab hbc ⊢; exact le_trans hbc hab
  have hsorted := jsSort_pairwise (fun a b => decide (sortCmp sortBy sortDir a b ≤ 0))
    (fun p => ∀ s, sortKeyOf p sortBy ≠ JSVal.str s) l hnum htotal htrans
  refine hsorted.imp_of_mem ?_
  intro a b hma hmb hle
  intro hnull
  have hPa := hnum a ((mem_jsSort _ _ _).mp hma)
  have hPb := hnum b ((mem_jsSort _ _ _).mp hmb)
  have hle2 : sortCmp sortBy sortDir a b ≤ 0 := of_decide_eq_true hle
  rw [sortCmp_le_iff sortBy sortDir a b hPa hPb] at hle2
  cases hkb : sortKeyOf b sortBy with
  | null => rfl
  | str s => exact absurd hkb (hPb s)
  | num x =>
    exfalso
    rw [hnull, hkb] at hle2
    by_cases hd : sortDir = "asc"
    · rw [if_pos hd, hd] at hle2
      simp [toKey, keyER, top_le_iff] at hle2
    · rw [if_neg hd] at hle2
      simp [toKey, keyER, hd, le_bot_iff] at hle2

/-- C9 counterexample: sorting by the string-valued field `starType`
(ascending), a record whose key is `null` stays *before* a record with a
non-null key — comparing a string against the `Infinity` sentinel yields
`NaN` comparisons, the comparator returns 0, and the stable sort preserves
input order — so null keys do not always sort last as claimed. -/
theorem search_null_sort_C9_counterexample :
    searchPlanets [pNullStar, pMStar] "" { sortBy := some "starType" } =
      [pNullStar, pMStar] ∧
    sortKeyOf pNullStar "starType" = JSVal.null ∧
    sortKeyOf pMStar "starType" = JSVal.str "M2V" := by
  refine ⟨?_, rfl, rfl⟩
  rfl

/-- C9 (amended): whenever every record's chosen sort key is a number or
`null` — true for every numeric sort field, and for `esi` where a missing
score reads as 0 — records with a `null` key come after every record with a
non-null key in the sorted search output, for both sort directions (`null`
maps to `+Infinity` for ascending and `-Infinity` otherwise).  For
string-valued sort fields the comparator returns 0 against the sentinel and
the stable sort leaves null-keyed records in place instead. -/
theorem search_null_sort_C9 (catalog : List Planet) (query : String) (f : Filters)
    (sortBy : String)
    (hsb : sortBy = (match f.sortBy with
      | some s => if s.isEmpty then "name" else s
      | none => "name"))
    (hnum : ∀ p ∈ catalog, ∀ s, sortKeyOf p sortBy ≠ JSVal.str s) :
    (searchPlanets catalog query f).Pairwise
      (fun a b => sortKeyOf a sortBy = JSVal.null → sortKeyOf b sortBy = JSVal.null) := by
  subst hsb
  exact jsSort_cmp_null_last _ _ _
    (fun p hp => hnum p (foldl_filter_subset (searchStages query f) catalog hp))

/-- C9 witness: a radius-ascending search over two records, one with a
missing radius; the amended theorem applies and the null-keyed record indeed
cannot precede the present-keyed one. -/
theorem search_null_sort_C9_witness :
    ("radius" = (match ({ sortBy := some "radius" } : Filters).sortBy with
      | some s => if s.isEmpty then "name" else s
      | none => "name")) ∧
    (∀ p ∈ [pNullStar, pMStar], ∀ s, sortKeyOf p "radius" ≠ JSVal.str s) ∧
    (searchPlanets [pNullStar, pMStar] "" { sortBy := some "radius" }).Pairwise
      (fun a b => sortKeyOf a "radius" = JSVal.null → sortKeyOf b "radius" = JSVal.null) := by
  have h1 : ("radius" = (match ({ sortBy := some "radius" } : Filters).sortBy with
      | some s => if s.isEmpty then "name" else s
      | none => "name")) := rfl
  have h2 : ∀ p ∈ ([pNullStar, pMStar] : List Planet), ∀ s,
      sortKeyOf p "radius" ≠ JSVal.str s := by
    intro p hp s
    rcases List.mem_cons.mp hp with rfl | hp2
    · simp [sortKeyOf, pNullStar]
    · rcases List.mem_cons.mp hp2 with rfl | hp3
      · simp [sortKeyOf, pMStar]
      · simp at hp3
  exact ⟨h1, h2, search_null_sort_C9 [pNullStar, pMStar] "" { sortBy := some "radius" }
    "radius" h1 h2⟩

theorem Heap.read_alloc_old (h : Heap) (v : List Planet) (i : ℕ)
    (hi : i < h.arrays.length) : (h.alloc v).1.read i = h.read i := by
  unfold Heap.alloc Heap.read
  rw [List.getD_append _ _ _ _ hi]

theorem Heap.read_alloc_new (h : Heap) (v : List Planet) :
    (h.alloc v).1.read (h.alloc v).2 = v := by
  unfold Heap.alloc Heap.read
  rw [List.getD_eq_getElem?_getD, List.getElem?_append_right (le_refl _)]
  simp

theorem Heap.alloc_length (h : Heap) (v : List Planet) :
    (h.alloc v).1.arrays.length = h.arrays.length + 1 := by
  unfold Heap.alloc
  simp

theorem Heap.read_write_ne (h : Heap) (r : ℕ) (v : List Planet) (i : ℕ) (hi : i ≠ r) :
    (h.write r v).read i = h.read i := by
  unfold Heap.write Heap.read
  rw [List.getD_eq_getElem?_getD, List.getElem?_set_ne (fun hh => hi hh.symm),
    ← List.getD_eq_getElem?_getD]

theorem Heap.read_write_self (h : Heap) (r : ℕ) (v : List Planet)
    (hr : r < h.arrays.length) : (h.write r v).read r = v := by
  unfold Heap.write Heap.read
  rw [List.getD_eq_getElem?_getD, List.getElem?_set_self (by omega)]
  simp

theorem heapFold_inv (stages : List (Planet → Bool)) (h0 : Heap) (r0 cat : ℕ)
    (hcat : cat < h0.arrays.length) (hr0 : r0 < h0.arrays.length) :
    cat < (stages.foldl
        (fun (hr : Heap × ℕ) pr => hr.1.alloc ((hr.1.read hr.2).filter pr))
        (h0, r0)).1.arrays.length ∧
    (stages.foldl (fun (hr : Heap × ℕ) pr => hr.1.alloc ((hr.1.read hr.2).filter pr))
        (h0, r0)).2 <
      (stages.foldl (fun (hr : Heap × ℕ) pr => hr.1.alloc ((hr.1.read hr.2).filter pr))
        (h0, r0)).1.arrays.length ∧
    (stages.foldl (fun (hr : Heap × ℕ) pr => hr.1.alloc ((hr.1.read hr.2).filter pr))
        (h0, r0)).1.read cat = h0.read cat ∧
    (stages.foldl (fun (hr : Heap × ℕ) pr => hr.1.alloc ((hr.1.read hr.2).filter pr))
        (h0, r0)).1.read
      (stages.foldl (fun (hr : Heap × ℕ) pr => hr.1.alloc ((hr.1.read hr.2).filter pr))
        (h0, r0)).2 =
      stages.foldl (fun acc pr => acc.filter pr) (h0.read r0) ∧
    r0 ≤ (stages.foldl (fun (hr : Heap × ℕ) pr => hr.1.alloc ((hr.1.read hr.2).filter pr))
        (h0, r0)).2 := by
  induction stages generalizing h0 r0 with
  | nil => exact ⟨hcat, hr0, rfl, rfl, le_refl _⟩
  | cons pr rest ih =>
    simp only [List.foldl_cons]
    have hlen := Heap.alloc_length h0 ((h0.read r0).filter pr)
    have hcat2 : cat < (h0.alloc ((h0.read r0).filter pr)).1.arrays.length := by omega
    have hr2 : (h0.alloc ((h0.read r0).filter pr)).2 <
        (h0.alloc ((h0.read r0).filter pr)).1.arrays.length := by
      unfold Heap.alloc
      simp
    have := ih (h0.alloc ((h0.read r0).filter pr)).1 (h0.alloc ((h0.read r0).filter pr)).2
      hcat2 hr2
    simp only [Prod.mk.eta] at this
    refine ⟨this.1, this.2.1, ?_, ?_, ?_⟩
    · rw [this.2.2.1, Heap.read_alloc_old _ _ _ hcat]
    · rw [this.2.2.2.1, Heap.read_alloc_new]
    · have h5 := this.2.2.2.2
      have : r0 ≤ (h0.alloc ((h0.read r0).filter pr)).2 := by
        unfold Heap.alloc
        simpa using hr0.le
      omega

set_option maxHeartbeats 2000000 in
/-- C10: `searchPlanets` never touches the stored catalog array — the spread
copy, every `filter`, and the final in-place sort operate on freshly
allocated arrays, so after a search the catalog reference reads the same
contents, the returned reference is a new allocation distinct from the
catalog, and it holds exactly the pure search result. -/
theorem search_frame_C10 (h : Heap) (catalogRef : ℕ) (query : String) (f : Filters)
    (href : catalogRef < h.arrays.length) :
    (searchPlanetsProg h catalogRef query f).1.read catalogRef = h.read catalogRef ∧
    h.arrays.length ≤ (searchPlanetsProg h catalogRef query f).2 ∧
    (searchPlanetsProg h catalogRef query f).2 ≠ catalogRef ∧
    (searchPlanetsProg h catalogRef query f).1.read
        (searchPlanetsProg h catalogRef query f).2 =
      searchPlanets (h.read catalogRef) query f := by
  have hlen := Heap.alloc_length h (h.read catalogRef)
  have hcat2 : catalogRef < (h.alloc (h.read catalogRef)).1.arrays.length := by omega
  have hr2 : (h.alloc (h.read catalogRef)).2 <
      (h.alloc (h.read catalogRef)).1.arrays.length := by
    unfold Heap.alloc
    simp
  have hinv := heapFold_inv (searchStages query f) (h.alloc (h.read catalogRef)).1
    (h.alloc (h.read catalogRef)).2 catalogRef hcat2 hr2
  simp only [Prod.mk.eta] at hinv
  have hprog : searchPlanetsProg h catalogRef query f =
      (((searchStages query f).foldl
          (fun (hr : Heap × ℕ) pr => hr.1.alloc ((hr.1.read hr.2).filter pr))
          (h.alloc (h.read catalogRef))).1.write ((searchStages query f).foldl
          (fun (hr : Heap × ℕ) pr => hr.1.alloc ((hr.1.read hr.2).filter pr))
          (h.alloc (h.read catalogRef))).2
        (jsSort (sortLe f) (((searchStages query f).foldl
          (fun (hr : Heap × ℕ) pr => hr.1.alloc ((hr.1.read hr.2).filter pr))
          (h.alloc (h.read catalogRef))).1.read ((searchStages query f).foldl
          (fun (hr : Heap × ℕ) pr => hr.1.alloc ((hr.1.read hr.2).filter pr))
          (h.alloc (h.read catalogRef))).2)),
       ((searchStages query f).foldl
          (fun (hr : Heap × ℕ) pr => hr.1.alloc ((hr.1.read hr.2).filter pr))
          (h.alloc (h.read catalogRef))).2) := rfl
  have hstart : (h.alloc (h.read catalogRef)).2 = h.arrays.length := rfl
  have h5 := hinv.2.2.2.2
  rw [hstart] at h5
  have hne : ((searchStages query f).foldl
          (fun (hr : Heap × ℕ) pr => hr.1.alloc ((hr.1.read hr.2).filter pr))
          (h.alloc (h.read catalogRef))).2 ≠ catalogRef := by omega
  rw [hprog]
  refine ⟨?_, h5, hne, ?_⟩
  · rw [Heap.read_write_ne _ _ _ _ (fun hh => hne hh.symm), hinv.2.2.1,
      Heap.read_alloc_old _ _ _ href]
  · rw [Heap.read_write_self _ _ _ hinv.2.1, hinv.2.2.2.1, Heap.read_alloc_new]
    rfl

/-- C10 witness: a one-element catalog at reference 0; the search leaves it
unchanged and returns a fresh reference holding the pure result. -/
theorem search_frame_C10_witness :
    (0 < (Heap.mk [[pMStar]]).arrays.length) ∧
    ((searchPlanetsProg (Heap.mk [[pMStar]]) 0 "" {}).1.read 0 =
      (Heap.mk [[pMStar]]).read 0) ∧
    (searchPlanetsProg (Heap.mk [[pMStar]]) 0 "" {}).2 ≠ 0 := by
  have h := search_frame_C10 (Heap.mk [[pMStar]]) 0 "" {} (by simp)
  exact ⟨by simp, h.1, h.2.2.1⟩
